import Mathlib

/-!
Shallow embedding of the Dublin bus intelligence backend.

Each definition mirrors one Python function of the repository:

* `parse_trip_updates`, `mkVehicleRecord`, `parse_vehicle_positions`,
  `write_to_redis`, `poll_write` — `ingestion/gtfs_realtime/poller.py`
* `get_route_name`, `get_route_name_by_trip` — `ingestion/gtfs_static/loader.py`
* `detect_ghost_buses` — `backend/services/ghost_detection.py`
* `detect_bunching` — `backend/services/bunching_detection.py`
* `crowding_snapshot` — `backend/services/crowd_reports.py`
* `generate_surge`, `action_intervention`, `store_interventions` —
  `backend/services/intervention_engine.py`
* `bunching_score` — `backend/services/network_health.py`
* `update_intervention`, `get_bus` — `backend/api/v1/operations.py`, `buses.py`

Modelling conventions: Python floats are modelled by exact rationals;
`round(x, n)` is round-half-to-even (`pyRoundTo`), `int(x)` truncates toward
zero (`pyInt`).  The Haversine distance is a real-valued transcendental
computation, so every definition that consumes it is parameterised by an
arbitrary rational-valued distance function `hav`; all theorems hold for every
such function.  Redis state is modelled as an explicit functional state, and a
pipeline as the sequential application of its commands.  Python's stable
`sort` is modelled by `List.insertionSort`, which is stable in the same sense.
-/

namespace BusIQ

/-- Python `round` to the nearest integer, ties to even (banker's rounding). -/
def pyRoundInt (q : ℚ) : ℤ :=
  let f := ⌊q⌋
  let r := q - (f : ℚ)
  if r < 1/2 then f
  else if 1/2 < r then f + 1
  else if Even f then f else f + 1

/-- Python `round(x, n)`: round to `n` decimal places, ties to even. -/
def pyRoundTo (n : ℕ) (q : ℚ) : ℚ := (pyRoundInt (q * 10 ^ n) : ℚ) / 10 ^ n

/-- Python `int(x)`: truncation toward zero. -/
def pyInt (q : ℚ) : ℤ := if 0 ≤ q then ⌊q⌋ else ⌈q⌉

/-! ### Static catalog (`ingestion/gtfs_static/loader.py`) -/

/-- The two indexes of `GtfsStaticLoader` that the poller and the detectors
use: `route_map : route_id → route_short_name` and
`trip_route_map : trip_id → route_id`, as association lists in insertion
order. -/
structure StaticCatalog where
  route_map : List (String × String)
  trip_route_map : List (String × String)

/-- `GtfsStaticLoader.get_route_name`: the mapped short name when `route_id`
is a key of `route_map`, otherwise the raw id (the fallback loop over
`trip_route_map` in the source only ever returns for keys already in
`route_map`, so it never fires). -/
def get_route_name (c : StaticCatalog) (route_id : String) : String :=
  match c.route_map.lookup route_id with
  | some short => short
  | none => route_id

/-- `GtfsStaticLoader.get_route_name_by_trip`: resolve `trip_id → route_id →
short name`; empty string when the trip is unknown or maps to an empty
route id. -/
def get_route_name_by_trip (c : StaticCatalog) (trip_id : String) : String :=
  let route_id := (c.trip_route_map.lookup trip_id).getD ""
  if route_id ≠ "" then get_route_name c route_id else ""

/-! ### GTFS-realtime feed entities (`ingestion/gtfs_realtime/poller.py`) -/

/-- A protobuf `TripDescriptor` (the fields the poller reads). -/
structure TripDescriptor where
  trip_id : String
  route_id : String
deriving DecidableEq

/-- A protobuf `Position`.  Unset protobuf numeric fields read as `0`, which
is exactly how the Python code observes them, so the fields are plain
rationals. -/
structure Position where
  latitude : ℚ
  longitude : ℚ
  bearing : ℚ
  speed : ℚ
deriving DecidableEq

/-- A `VehiclePosition` entity: `trip` is `none` when `HasField("trip")` is
false, `occupancy_status` is `none` when `HasField("occupancy_status")` is
false. -/
structure VehicleEntity where
  trip : Option TripDescriptor
  position : Position
  vehicle_id : String
  occupancy_status : Option ℕ
  timestamp : ℤ
deriving DecidableEq

/-- One `stop_time_update` of a `TripUpdate`: each of `arrival` and
`departure` is `none` when the corresponding `HasField` is false, otherwise
it carries the (signed) delay in seconds. -/
structure StopTimeUpdate where
  arrival : Option ℤ
  departure : Option ℤ
deriving DecidableEq

/-- A protobuf `TripUpdate`. -/
structure TripUpdate where
  trip : Option TripDescriptor
  stop_time_update : List StopTimeUpdate
deriving DecidableEq

/-- A TripUpdates feed entity; `none` models `HasField("trip_update") =
false`. -/
structure TUEntity where
  trip_update : Option TripUpdate
deriving DecidableEq

/-- The inner loop of `_parse_trip_updates`: the maximum of
`|arrival.delay|` and `|departure.delay|` over all stop time updates,
starting from `0`. -/
def maxDelay (tu : TripUpdate) : ℤ :=
  tu.stop_time_update.foldl
    (fun acc stu =>
      let acc1 := match stu.arrival with
        | some d => max acc |d|
        | none => acc
      match stu.departure with
      | some d => max acc1 |d|
      | none => acc1)
    0

/-- The effective trip id of a `TripUpdate`:
`tu.trip.trip_id if tu.HasField("trip") else ""`. -/
def tuTripId (tu : TripUpdate) : String :=
  match tu.trip with
  | some td => td.trip_id
  | none => ""

/-- One step of the `_parse_trip_updates` loop: skip entities without a
`trip_update` or with an empty trip id, record `trip_id ↦ max_delay` only
when `max_delay > 0` (a later entity with the same trip id overwrites an
earlier one, as a Python dict assignment does). -/
def tuStep (m : String → Option ℤ) (e : TUEntity) : String → Option ℤ :=
  match e.trip_update with
  | none => m
  | some tu =>
    let tid := tuTripId tu
    if tid = "" then m
    else if 0 < maxDelay tu then fun t => if t = tid then some (maxDelay tu) else m t
    else m

/-- `GtfsRealtimePoller._parse_trip_updates`.  The argument is `none` when
the feed bytes are empty — which is what `_fetch_feeds` hands over when the
TripUpdates request errored, returned 429 or any other non-200 status — and
in that case the delay map is empty. -/
def parse_trip_updates (data : Option (List TUEntity)) : String → Option ℤ :=
  match data with
  | none => fun _ => none
  | some entities => entities.foldl tuStep (fun _ => none)

/-- The trip ids that `_parse_trip_updates` iterates over (entities with a
`trip_update` whose effective trip id is non-empty), in feed order. -/
def tripKeys (entities : List TUEntity) : List String :=
  entities.filterMap fun e =>
    match e.trip_update with
    | none => none
    | some tu => if tuTripId tu = "" then none else some (tuTripId tu)

/-- The outcome of the TripUpdates half of `_fetch_feeds`: an exception or an
HTTP response with a status code and a parsed body. -/
inductive TUFetch where
  | exn : TUFetch
  | resp : ℕ → List TUEntity → TUFetch
deriving DecidableEq

/-- The TripUpdates branch of `_fetch_feeds`: only a 200 response yields feed
content; an exception, a 429 or any other status degrade to empty bytes
(`none`) without raising. -/
def tu_feed : TUFetch → Option (List TUEntity)
  | .exn => none
  | .resp 200 content => some content
  | .resp _ _ => none

/-- `GtfsRealtimePoller._parse_occupancy`. -/
def parse_occupancy (o : Option ℕ) : String :=
  match o with
  | none => "UNKNOWN"
  | some 0 => "EMPTY"
  | some 1 => "MANY_SEATS_AVAILABLE"
  | some 2 => "FEW_SEATS_AVAILABLE"
  | some 3 => "STANDING_ROOM_ONLY"
  | some 4 => "CRUSHED_STANDING_ROOM_ONLY"
  | some 5 => "FULL"
  | some 6 => "NOT_ACCEPTING_PASSENGERS"
  | some _ => "UNKNOWN"

/-- The `vehicle_data` dict that `_parse_vehicle_positions` builds for each
entity. -/
structure VehicleRecord where
  vehicle_id : String
  route_id : String
  route_short_name : String
  trip_id : Option String
  latitude : ℚ
  longitude : ℚ
  bearing : Option ℤ
  speed_kmh : Option ℚ
  occupancy_status : String
  delay_seconds : ℤ
  timestamp : ℤ
deriving DecidableEq

/-- The body of the `_parse_vehicle_positions` loop for one entity with a
`vehicle` field.  Note the Python truthiness tests: `if trip_id` is false
for both `None` and `""`; `if pos.bearing` is false for `0`; `if pos.speed`
is false for `0`; `route_short_name or route_id` falls back on the empty
string. -/
def mkVehicleRecord (c : StaticCatalog) (delay_map : String → Option ℤ)
    (vp : VehicleEntity) : VehicleRecord :=
  let trip_id : Option String := vp.trip.map TripDescriptor.trip_id
  let route_id : String := match vp.trip with
    | some td => td.route_id
    | none => ""
  let rsn0 : String := match trip_id with
    | some t => if t ≠ "" then get_route_name_by_trip c t else ""
    | none => ""
  let rsn1 : String := if rsn0 = "" ∧ route_id ≠ "" then get_route_name c route_id else rsn0
  let delay : ℤ := match trip_id with
    | some t => if t ≠ "" then (delay_map t).getD 0 else 0
    | none => 0
  { vehicle_id := vp.vehicle_id
    route_id := route_id
    route_short_name := if rsn1 = "" then route_id else rsn1
    trip_id := trip_id
    latitude := pyRoundTo 6 vp.position.latitude
    longitude := pyRoundTo 6 vp.position.longitude
    bearing := if vp.position.bearing ≠ 0 then some (pyInt vp.position.bearing) else none
    speed_kmh := if vp.position.speed ≠ 0 then some (pyRoundTo 1 (vp.position.speed * (18/5))) else none
    occupancy_status := parse_occupancy vp.occupancy_status
    delay_seconds := delay
    timestamp := vp.timestamp }

/-- `GtfsRealtimePoller._parse_vehicle_positions`: entities without a
`vehicle` field (`none`) are skipped, the rest become records. -/
def parse_vehicle_positions (c : StaticCatalog) (entities : List (Option VehicleEntity))
    (delay_map : String → Option ℤ) : List VehicleRecord :=
  entities.filterMap fun e => e.map (mkVehicleRecord c delay_map)

/-! ### Redis writes of the poller -/

/-- The slice of Redis state the poller touches.  Hash values are stored
stringified in the real store; stringification is faithful to the record, so
the hash is modelled as the record itself. -/
structure RedisState where
  vehicle_hash : String → Option VehicleRecord
  fleet : Finset String
  fleet_ts : Option ℤ
  published : List (List VehicleRecord × ℤ)

/-- The per-vehicle `hset` commands of the `_write_to_redis` pipeline, in
list order (a later duplicate id overwrites an earlier one). -/
def write_hashes (vs : List VehicleRecord) (s : RedisState) : RedisState :=
  vs.foldl
    (fun st v =>
      { st with vehicle_hash := fun k => if k = v.vehicle_id then some v else st.vehicle_hash k })
    s

/-- `GtfsRealtimePoller._write_to_redis`: one pipeline that writes every
vehicle hash, then — only when the id list is non-empty — deletes and
rebuilds the fleet set, then sets the fleet timestamp; after execution the
snapshot is published. -/
def write_to_redis (now : ℤ) (vs : List VehicleRecord) (s : RedisState) : RedisState :=
  let s1 := write_hashes vs s
  let ids := vs.map VehicleRecord.vehicle_id
  let s2 := if ids.isEmpty then s1 else { s1 with fleet := ids.toFinset }
  let s3 := { s2 with fleet_ts := some now }
  { s3 with published := s3.published ++ [(vs, now)] }

/-- The tail of `GtfsRealtimePoller.poll`: Redis is written only when the
parsed vehicle list is non-empty (`if self.redis and vehicles`). -/
def poll_write (now : ℤ) (vs : List VehicleRecord) (s : RedisState) : RedisState :=
  if vs.isEmpty then s else write_to_redis now vs s

/-! ### Live vehicles as the detectors see them
(`backend/core/redis.py::_parse_vehicle_hash`) -/

/-- A vehicle dict as returned by `get_all_vehicles`.  The ISO timestamp
string is modelled by its parsed value in UTC seconds; `none` models a
string that `datetime.fromisoformat` rejects (the `except` branch of ghost
detection). -/
structure LiveVehicle where
  vehicle_id : String
  route_id : String
  route_short_name : String
  trip_id : Option String
  latitude : ℚ
  longitude : ℚ
  bearing : Option ℤ
  speed_kmh : Option ℚ
  occupancy_status : String
  delay_seconds : ℤ
  timestamp : Option ℤ
deriving DecidableEq

/-! ### Ghost detection (`backend/services/ghost_detection.py`) -/

/-- A signal-lost `GhostBus` record. -/
structure GhostBus where
  vehicle_id : String
  route_id : String
  route_short_name : String
  last_latitude : ℚ
  last_longitude : ℚ
  last_seen : Option ℤ
  stale_seconds : ℤ
  ghost_type : String
deriving DecidableEq

/-- A schedule-only `GhostRoute` record. -/
structure GhostRoute where
  route_id : String
  route_short_name : String
deriving DecidableEq

/-- The `GhostBusReport` dataclass (without the wall-clock
`generated_at`). -/
structure GhostBusReport where
  ghost_buses : List GhostBus
  ghost_routes : List GhostRoute
  total_live_vehicles : ℕ
  total_ghost_vehicles : ℕ
  total_routes_with_buses : ℕ
  total_routes_without_buses : ℕ

/-- The age in seconds that `detect_ghost_buses` computes for a vehicle:
`now - ts`, with `ts = now` (age `0`) when the timestamp fails to parse. -/
def vehicleAge (now : ℤ) (v : LiveVehicle) : ℤ := now - v.timestamp.getD now

/-- The `GhostBus` record built for a stale vehicle. -/
def mkGhost (now : ℤ) (v : LiveVehicle) : GhostBus :=
  { vehicle_id := v.vehicle_id
    route_id := v.route_id
    route_short_name := v.route_short_name
    last_latitude := v.latitude
    last_longitude := v.longitude
    last_seen := v.timestamp
    stale_seconds := vehicleAge now v
    ghost_type := "signal-lost" }

/-- The main loop of `detect_ghost_buses`: collect signal-lost ghosts
(`age > 120`), and for fresh vehicles count them and collect their non-empty
route ids. -/
def ghost_scan (now : ℤ) : List LiveVehicle → List GhostBus × Finset String × ℕ
  | [] => ([], ∅, 0)
  | v :: rest =>
    let r := ghost_scan now rest
    if 120 < vehicleAge now v then (mkGhost now v :: r.1, r.2.1, r.2.2)
    else (r.1, (if v.route_id ≠ "" then insert v.route_id r.2.1 else r.2.1), r.2.2 + 1)

/-- `detect_ghost_buses`: signal-lost ghosts from stale vehicles, and
schedule-only ghost routes = catalog route ids minus live route ids, sorted
lexically. -/
def detect_ghost_buses (c : StaticCatalog) (now : ℤ) (vehicles : List LiveVehicle) :
    GhostBusReport :=
  let scan := ghost_scan now vehicles
  let ghosts := scan.1
  let live_route_ids := scan.2.1
  let live_count := scan.2.2
  let all_route_ids : Finset String := (c.route_map.map Prod.fst).toFinset
  let ghost_route_ids := all_route_ids \ live_route_ids
  { ghost_buses := ghosts
    ghost_routes :=
      (Finset.sort (· ≤ ·) ghost_route_ids).map fun rid =>
        { route_id := rid, route_short_name := get_route_name c rid }
    total_live_vehicles := live_count
    total_ghost_vehicles := ghosts.length
    total_routes_with_buses := live_route_ids.card
    total_routes_without_buses := ghost_route_ids.card }

/-! ### Bunching detection (`backend/services/bunching_detection.py`) -/

/-- The `BunchingPair` dataclass. -/
structure BunchingPair where
  vehicle_a : String
  vehicle_b : String
  route_id : String
  route_short_name : String
  distance_m : ℚ
  severity : String
  midpoint_lat : ℚ
  midpoint_lon : ℚ
  vehicle_a_lat : ℚ
  vehicle_a_lon : ℚ
  vehicle_b_lat : ℚ
  vehicle_b_lon : ℚ
deriving DecidableEq

/-- The `BunchingAlert` dataclass. -/
structure BunchingAlert where
  route_id : String
  route_short_name : String
  pair_count : ℕ
  worst_distance_m : ℚ
  severity : String
  bunched_pairs : List BunchingPair

/-- The `BunchingReport` dataclass (without `generated_at`). -/
structure BunchingReport where
  alerts : List BunchingAlert
  total_pairs : ℕ
  routes_affected : ℕ
  total_live_vehicles : ℕ

/-- One step of collecting the `route_groups` keys: a non-empty route id not
seen before is appended. -/
def route_keys_step (acc : List String) (v : LiveVehicle) : List String :=
  if v.route_id = "" ∨ v.route_id ∈ acc then acc else acc ++ [v.route_id]

/-- The route keys of `route_groups` in Python dict insertion order: order
of first occurrence among vehicles with a non-empty `route_id`. -/
def route_keys (vehicles : List LiveVehicle) : List String :=
  vehicles.foldl route_keys_step []

/-- The vehicle list grouped under one route key, in iteration order. -/
def route_group (vehicles : List LiveVehicle) (rid : String) : List LiveVehicle :=
  vehicles.filter fun v => v.route_id = rid

/-- All index pairs `(i, j)` with `i < j`, in the order of the two nested
`for` loops of `detect_bunching`. -/
def pairs_from : List LiveVehicle → List (LiveVehicle × LiveVehicle)
  | [] => []
  | a :: rest => rest.map (fun b => (a, b)) ++ pairs_from rest

/-- The severity a pair at (unrounded) distance `d < 400` receives. -/
def pairSeverity (d : ℚ) : String :=
  if d < 200 then "severe" else if d < 300 then "moderate" else "mild"

/-- The `BunchingPair` built for two buses at (unrounded) distance `d`. -/
def mkBunchingPair (rid : String) (a b : LiveVehicle) (d : ℚ) : BunchingPair :=
  { vehicle_a := a.vehicle_id
    vehicle_b := b.vehicle_id
    route_id := rid
    route_short_name := a.route_short_name
    distance_m := pyRoundTo 1 d
    severity := pairSeverity d
    midpoint_lat := (a.latitude + b.latitude) / 2
    midpoint_lon := (a.longitude + b.longitude) / 2
    vehicle_a_lat := a.latitude
    vehicle_a_lon := a.longitude
    vehicle_b_lat := b.latitude
    vehicle_b_lon := b.longitude }

/-- The Haversine distance between two vehicles, as `detect_bunching` calls
it. -/
def vdist (hav : ℚ → ℚ → ℚ → ℚ → ℚ) (a b : LiveVehicle) : ℚ :=
  hav a.latitude a.longitude b.latitude b.longitude

/-- The pair loop of `detect_bunching` for one route: every index pair at
Haversine distance `< 400` becomes a `BunchingPair`. -/
def bunch_pairs (hav : ℚ → ℚ → ℚ → ℚ → ℚ) (rid : String) (buses : List LiveVehicle) :
    List BunchingPair :=
  ((pairs_from buses).filter fun ab => vdist hav ab.1 ab.2 < 400).map fun ab =>
    mkBunchingPair rid ab.1 ab.2 (vdist hav ab.1 ab.2)

/-- Python's `min(pairs, key=lambda p: p.distance_m)` over a non-empty list:
the first pair attaining the minimum recorded distance. -/
def worst_pair (p0 : BunchingPair) (rest : List BunchingPair) : BunchingPair :=
  rest.foldl (fun best p => if p.distance_m < best.distance_m then p else best) p0

/-- The `BunchingAlert` for one route, when its pair list is non-empty. -/
def mkAlert (rid : String) (p0 : BunchingPair) (rest : List BunchingPair) : BunchingAlert :=
  let worst := worst_pair p0 rest
  { route_id := rid
    route_short_name := p0.route_short_name
    pair_count := (p0 :: rest).length
    worst_distance_m := worst.distance_m
    severity := worst.severity
    bunched_pairs := p0 :: rest }

/-- The per-route phase of `detect_bunching`: routes with fewer than two
buses or with no close pair produce no alert. -/
def route_alert (hav : ℚ → ℚ → ℚ → ℚ → ℚ) (vehicles : List LiveVehicle) (rid : String) :
    Option BunchingAlert :=
  let buses := route_group vehicles rid
  if buses.length < 2 then none
  else
    match bunch_pairs hav rid buses with
    | [] => none
    | p0 :: rest => some (mkAlert rid p0 rest)

/-- `severity_order` of `detect_bunching` — rank of a severity string, with
`.get(s, 3)` default. -/
def sev_rank (s : String) : ℕ :=
  if s = "severe" then 0 else if s = "moderate" then 1 else if s = "mild" then 2 else 3

/-- The sort key order on alerts: severity rank first, then worst
distance. -/
def alert_le (a b : BunchingAlert) : Prop :=
  sev_rank a.severity < sev_rank b.severity ∨
    (sev_rank a.severity = sev_rank b.severity ∧ a.worst_distance_m ≤ b.worst_distance_m)

instance : DecidableRel alert_le := fun a b => by
  unfold alert_le; infer_instance

instance : IsTrans BunchingAlert alert_le :=
  ⟨fun a b c hab hbc => by
    rcases hab with h1 | ⟨h1, h2⟩ <;> rcases hbc with h3 | ⟨h3, h4⟩
    · exact Or.inl (lt_trans h1 h3)
    · exact Or.inl (lt_of_lt_of_le h1 (le_of_eq h3))
    · exact Or.inl (lt_of_le_of_lt (le_of_eq h1) h3)
    · exact Or.inr ⟨h1.trans h3, le_trans h2 h4⟩⟩

instance : IsTotal BunchingAlert alert_le :=
  ⟨fun a b => by
    rcases lt_trichotomy (sev_rank a.severity) (sev_rank b.severity) with h | h | h
    · exact Or.inl (Or.inl h)
    · rcases le_total a.worst_distance_m b.worst_distance_m with h2 | h2
      · exact Or.inl (Or.inr ⟨h, h2⟩)
      · exact Or.inr (Or.inr ⟨h.symm, h2⟩)
    · exact Or.inr (Or.inl h)⟩

/-- `detect_bunching`, parameterised by the Haversine distance function. -/
def detect_bunching (hav : ℚ → ℚ → ℚ → ℚ → ℚ) (vehicles : List LiveVehicle) :
    BunchingReport :=
  let alerts0 := (route_keys vehicles).filterMap (route_alert hav vehicles)
  { alerts := alerts0.insertionSort alert_le
    total_pairs := (alerts0.map BunchingAlert.pair_count).sum
    routes_affected := alerts0.length
    total_live_vehicles := vehicles.length }

/-- All pairs of a report, across its alerts. -/
def all_pairs (r : BunchingReport) : List BunchingPair :=
  r.alerts.flatMap BunchingAlert.bunched_pairs

/-! ### Crowd reports (`backend/services/crowd_reports.py`) -/

/-- The `StoredCrowdReport` dataclass; `reported_at` modelled in UTC
seconds. -/
structure StoredCrowdReport where
  id : String
  vehicle_id : String
  route_id : String
  route_short_name : String
  crowding_level : String
  latitude : ℚ
  longitude : ℚ
  reported_at : ℤ
deriving DecidableEq

/-- The `RouteCrowdingSummary` dataclass.  `levels` keeps Python dict
insertion order as an association list. -/
structure RouteCrowdingSummary where
  route_id : String
  route_short_name : String
  report_count : ℕ
  latest_level : String
  levels : List (String × ℕ)
  avg_score : ℚ
deriving DecidableEq

/-- The `CrowdingSnapshot` dataclass (without `generated_at`). -/
structure CrowdingSnapshot where
  total_reports : ℕ
  reports_last_hour : ℕ
  route_summaries : List RouteCrowdingSummary
  recent_reports : List StoredCrowdReport

/-- `LEVEL_SCORES.get(lvl, 0)`. -/
def level_score (s : String) : ℕ :=
  if s = "empty" then 0
  else if s = "seats" then 1
  else if s = "standing" then 2
  else if s = "full" then 3
  else 0

/-- `levels[lvl] = levels.get(lvl, 0) + 1` on an insertion-ordered dict. -/
def level_inc (l : List (String × ℕ)) (k : String) : List (String × ℕ) :=
  if (l.lookup k).isSome then l.map (fun p => if p.1 = k then (p.1, p.2 + 1) else p)
  else l ++ [(k, 1)]

/-- The per-route aggregation entry of `get_crowding_snapshot`
(`route_agg[rid]`). -/
structure AggEntry where
  route_short_name : String
  levels : List (String × ℕ)
  latest_level : String
deriving DecidableEq

/-- One step of the `get_crowding_snapshot` aggregation loop over recent
reports (most recent first, so `latest_level` is fixed by the first report
seen for a route). -/
def agg_step (agg : List (String × AggEntry)) (rep : StoredCrowdReport) :
    List (String × AggEntry) :=
  match agg.lookup rep.route_id with
  | none =>
    agg ++ [(rep.route_id,
      { route_short_name := rep.route_short_name
        levels := level_inc [("empty", 0), ("seats", 0), ("standing", 0), ("full", 0)]
          rep.crowding_level
        latest_level := rep.crowding_level })]
  | some _ =>
    agg.map fun p =>
      if p.1 = rep.route_id then (p.1, { p.2 with levels := level_inc p.2.levels rep.crowding_level })
      else p

/-- The summary built from one aggregation entry. -/
def mkSummary (rid : String) (e : AggEntry) : RouteCrowdingSummary :=
  let count := (e.levels.map Prod.snd).sum
  let score_sum := (e.levels.map fun p => level_score p.1 * p.2).sum
  let avg : ℚ := if 0 < count then (score_sum : ℚ) / count else 0
  { route_id := rid
    route_short_name := e.route_short_name
    report_count := count
    latest_level := e.latest_level
    levels := e.levels
    avg_score := pyRoundTo 2 avg }

/-- Descending order on report counts, the key of
`summaries.sort(key=…, reverse=True)`. -/
def summary_ge (a b : RouteCrowdingSummary) : Prop := b.report_count ≤ a.report_count

instance : DecidableRel summary_ge := fun a b => by
  unfold summary_ge; infer_instance

/-- `get_crowding_snapshot`, as a function of the lifetime counter and the
recent-reports list (at most 50 entries, most recent first) read from the
store. -/
def crowding_snapshot (total_count : ℕ) (recent : List StoredCrowdReport) :
    CrowdingSnapshot :=
  let agg := recent.foldl agg_step []
  let summaries := (agg.map fun p => mkSummary p.1 p.2).insertionSort summary_ge
  { total_reports := total_count
    reports_last_hour := recent.length
    route_summaries := summaries
    recent_reports := recent.take 20 }

/-! ### Intervention engine (`backend/services/intervention_engine.py`) -/

/-- A Dublin Bus depot from the compile-time `DEPOTS` table. -/
structure Depot where
  name : String
  lat : ℚ
  lon : ℚ
  capacity : ℕ
deriving DecidableEq

/-- The `DEPOTS` constant. -/
def DEPOTS : List Depot :=
  [ { name := "Broadstone", lat := 533555/10000, lon := -62729/10000, capacity := 180 }
  , { name := "Summerhill", lat := 533515/10000, lon := -62520/10000, capacity := 80 }
  , { name := "Ringsend", lat := 533385/10000, lon := -62272/10000, capacity := 140 }
  , { name := "Donnybrook", lat := 533217/10000, lon := -62385/10000, capacity := 100 }
  , { name := "Conyngham Road", lat := 533475/10000, lon := -63060/10000, capacity := 120 }
  , { name := "Phibsborough", lat := 533603/10000, lon := -62726/10000, capacity := 70 }
  , { name := "Harristown", lat := 534048/10000, lon := -62788/10000, capacity := 200 } ]

/-- `_nearest_depot`: scan the depot table keeping the first depot at
strictly minimal distance (`best_dist` starts at infinity, modelled by
`none`); returns the depot and the rounded distance. -/
def nearest_depot (hav : ℚ → ℚ → ℚ → ℚ → ℚ) (lat lon : ℚ) : Depot × ℤ :=
  let r := DEPOTS.foldl
    (fun (acc : Depot × Option ℚ) d =>
      let dist := hav lat lon d.lat d.lon
      match acc.2 with
      | none => (d, some dist)
      | some bd => if dist < bd then (d, some dist) else acc)
    ({ name := "Broadstone", lat := 533555/10000, lon := -62729/10000, capacity := 180 }, none)
  (r.1, pyRoundInt (r.2.getD 0))

/-- The `Intervention` dataclass, restricted to the fields the claims
mention (the free-text `headline`/`description` strings and the empty
`expires_at` are omitted); `id` is an opaque random 8-character string in
the source, modelled as `""` since nothing depends on its value at
creation. -/
structure Intervention where
  id : String
  itype : String
  priority : String
  status : String
  route_id : String
  route_name : String
  trigger : String
  vehicle_id : Option String := none
  target_stop : Option String := none
  hold_seconds : Option ℤ := none
  depot_name : Option String := none
  passengers_affected : ℤ := 0
  wait_time_impact_seconds : ℤ := 0
  confidence : ℚ := 0
  latitude : ℚ := 0
  longitude : ℚ := 0
  created_at : ℤ := 0
  actioned_at : Option ℤ := none
deriving DecidableEq

/-- The trigger condition of `_generate_surge_interventions`: 2+ `full`
reports or 3+ combined high reports on a route. -/
def surge_trigger (summary : RouteCrowdingSummary) : Prop :=
  2 ≤ (summary.levels.lookup "full").getD 0 ∨
    3 ≤ (summary.levels.lookup "full").getD 0 + (summary.levels.lookup "standing").getD 0

instance : DecidablePred surge_trigger := fun s => by
  unfold surge_trigger; infer_instance

/-- The loop body of `_generate_surge_interventions` for one route
summary. -/
def surge_of (hav : ℚ → ℚ → ℚ → ℚ → ℚ) (now : ℤ) (crowding : CrowdingSnapshot)
    (summary : RouteCrowdingSummary) : Option Intervention :=
  let full_count := (summary.levels.lookup "full").getD 0
  let standing_count := (summary.levels.lookup "standing").getD 0
  let total_high := full_count + standing_count
  if surge_trigger summary then
    let loc := (crowding.recent_reports.find? fun rep => rep.route_id = summary.route_id).map
      fun rep => (rep.latitude, rep.longitude)
    let coords := loc.getD (533498/10000, -62603/10000)
    let depot := nearest_depot hav coords.1 coords.2
    some
      { id := ""
        itype := "SURGE"
        priority := if 3 ≤ full_count then "critical" else "high"
        status := "pending"
        route_id := summary.route_id
        route_name := summary.route_short_name
        trigger := "crowding"
        depot_name := some depot.1.name
        passengers_affected := pyInt (((total_high : ℕ) : ℚ) * 75 * (9/10))
        wait_time_impact_seconds := -180
        confidence := 72/100
        latitude := coords.1
        longitude := coords.2
        created_at := now }
  else none

/-- `_generate_surge_interventions`: one SURGE per route summary whose
`full` count is ≥ 2 or whose `full + standing` count is ≥ 3. -/
def generate_surge (hav : ℚ → ℚ → ℚ → ℚ → ℚ) (now : ℤ) (crowding : CrowdingSnapshot) :
    List Intervention :=
  crowding.route_summaries.filterMap (surge_of hav now crowding)

/-- The engine's Redis state: the `interventions:active` list and the
`interventions:history` list, decoded. -/
structure EngineState where
  active : List Intervention
  history : List Intervention
deriving DecidableEq

/-- The scan loop of `action_intervention`: find the first active record
with the given id, mutate its `status` to `action + "d"` and set
`actioned_at`, and update it in place (`lset` at the same index). -/
def action_scan (act : String) (now : ℤ) (iid : String) :
    List Intervention → Option (Intervention × List Intervention)
  | [] => none
  | r :: rest =>
    if r.id = iid then
      let r2 := { r with status := act ++ "d", actioned_at := some now }
      some (r2, r2 :: rest)
    else
      match action_scan act now iid rest with
      | some (r2, rest2) => some (r2, r :: rest2)
      | none => none

/-- `action_intervention`: on a hit, update the active list in place,
left-push the mutated record onto history and trim history to 200 entries,
returning the updated record; on a miss return `none` and leave the state
unchanged. -/
def action_intervention (s : EngineState) (iid act : String) (now : ℤ) :
    Option Intervention × EngineState :=
  match action_scan act now iid s.active with
  | none => (none, s)
  | some (r2, active2) =>
    (some r2, { active := active2, history := (r2 :: s.history).take 200 })

/-- `_store_interventions`: one pipeline that deletes `interventions:active`
and right-pushes the new records; history is untouched. -/
def store_interventions (new : List Intervention) (s : EngineState) : EngineState :=
  { active := new, history := s.history }

/-! ### Network health (`backend/services/network_health.py`) -/

/-- The Headway Regularity raw score of `calculate_network_health`:
`bunching_rate = total_pairs / max(1, total_vehicles / 10)` and
`bunching_score = max(0, 100 - bunching_rate * 25)` when there are vehicles,
else `100`. -/
def bunching_score (total_vehicles total_pairs : ℕ) : ℚ :=
  if 0 < total_vehicles then
    max 0 (100 - ((total_pairs : ℚ) / max 1 ((total_vehicles : ℚ) / 10)) * 25)
  else 100

/-- Modelled from the spec: the Headway Regularity formula exactly as §4.F
words it, `max(0, 100 − (pairs / (vehicles/10)) · 25)` with no lower bound
on the denominator; used only to compare the specification against
`bunching_score`. -/
def spec_headway_score (total_vehicles total_pairs : ℕ) : ℚ :=
  if 0 < total_vehicles then
    max 0 (100 - ((total_pairs : ℚ) / ((total_vehicles : ℚ) / 10)) * 25)
  else 100

/-! ### API endpoints (`backend/api/v1/operations.py`, `buses.py`).
A FastAPI handler that returns a plain dict responds with HTTP 200; raising
`HTTPException(status_code=404)` responds with HTTP 404. -/

/-- The HTTP response of the intervention-action endpoint: status code plus
either an error body or the updated record. -/
structure OpsResponse where
  status_code : ℕ
  error : Option String
  data : Option Intervention
deriving DecidableEq

/-- `operations.update_intervention` (POST `/ops/interventions/{id}`): an
unknown action and an unknown id both return a plain dict with an `error`
key — hence HTTP 200; a hit returns the updated record, also HTTP 200. -/
def update_intervention (s : EngineState) (iid act : String) (now : ℤ) :
    OpsResponse × EngineState :=
  if ¬(act = "approve" ∨ act = "dismiss") then
    ({ status_code := 200, error := some "Action must be approve or dismiss", data := none }, s)
  else
    match action_intervention s iid act now with
    | (none, s2) => ({ status_code := 200, error := some "Intervention not found", data := none }, s2)
    | (some r, s2) => ({ status_code := 200, error := none, data := some r }, s2)

/-- The HTTP response of the single-vehicle endpoint. -/
structure BusResponse where
  status_code : ℕ
  data : Option LiveVehicle
deriving DecidableEq

/-- `buses.get_bus` (GET `/buses/{vehicle_id}`): raises
`HTTPException(404)` when the vehicle is absent from the live state,
otherwise returns the record with HTTP 200. -/
def get_bus (store : String → Option LiveVehicle) (vehicle_id : String) : BusResponse :=
  match store vehicle_id with
  | none => { status_code := 404, data := none }
  | some v => { status_code := 200, data := some v }

/-! ### Concrete inputs for witnesses and counterexamples -/

/-- An empty static catalog. -/
def empty_catalog : StaticCatalog := { route_map := [], trip_route_map := [] }

/-- An empty delay map. -/
def no_delays : String → Option ℤ := fun _ => none

/-- A vehicle entity whose feed bearing is `0.5` and whose feed speed is
`0.01 m/s`. -/
def bearing_half_entity : VehicleEntity :=
  { trip := none
    position := { latitude := 0, longitude := 0, bearing := 1/2, speed := 1/100 }
    vehicle_id := "V1"
    occupancy_status := none
    timestamp := 0 }

/-- A vehicle entity whose feed bearing and feed speed are both `0`
(protobuf default / unset). -/
def rec_entity_zero : VehicleEntity :=
  { trip := none
    position := { latitude := 0, longitude := 0, bearing := 0, speed := 0 }
    vehicle_id := "V2"
    occupancy_status := none
    timestamp := 0 }

/-- A minimal vehicle record. -/
def rec_v1 : VehicleRecord :=
  { vehicle_id := "V1", route_id := "R", route_short_name := "1", trip_id := none
    latitude := 0, longitude := 0, bearing := none, speed_kmh := none
    occupancy_status := "UNKNOWN", delay_seconds := 0, timestamp := 0 }

/-- A Redis state left over from an earlier poll: one stale fleet member. -/
def stale_redis : RedisState :=
  { vehicle_hash := fun _ => none, fleet := {"V9"}, fleet_ts := none, published := [] }

/-- A pending intervention with id `a1`. -/
def pending_a1 : Intervention :=
  { id := "a1", itype := "HOLD", priority := "high", status := "pending"
    route_id := "R1", route_name := "1", trigger := "bunching" }

/-- An engine state holding exactly the pending intervention `a1`. -/
def engine_one : EngineState := { active := [pending_a1], history := [] }

/-- `pending_a1` after an approve action at time 5. -/
def approved_a1 : Intervention := { pending_a1 with status := "approved", actioned_at := some 5 }

/-- An engine state with empty active and history lists. -/
def empty_engine : EngineState := { active := [], history := [] }

/-- A tiny TripUpdates feed: one update for trip `T1` with arrival delay 30
and departure delay −45, plus one entity without a `trip_update`. -/
def tu_example : List TUEntity :=
  [ { trip_update := some
        { trip := some { trip_id := "T1", route_id := "R1" }
          stop_time_update := [{ arrival := some 30, departure := some (-45) }] } }
  , { trip_update := none } ]

/-- A catalog with three routes, mirroring scenario S3 of the spec. -/
def catalog_r123 : StaticCatalog :=
  { route_map := [("R1", "1"), ("R2", "2"), ("R3", "3")], trip_route_map := [] }

/-- A fresh live vehicle on route `R1` (timestamp equals the probe time
100). -/
def live_r1 : LiveVehicle :=
  { vehicle_id := "V1", route_id := "R1", route_short_name := "1", trip_id := none
    latitude := 0, longitude := 0, bearing := none, speed_kmh := none
    occupancy_status := "UNKNOWN", delay_seconds := 0, timestamp := some 100 }

/-- Scenario S4, report 1: `full` on route `R9`. -/
def rep_full1 : StoredCrowdReport :=
  { id := "V1:3", vehicle_id := "V1", route_id := "R9", route_short_name := "9"
    crowding_level := "full", latitude := 53, longitude := -6, reported_at := 3 }

/-- Scenario S4, report 2: `full` on route `R9`. -/
def rep_full2 : StoredCrowdReport :=
  { id := "V2:2", vehicle_id := "V2", route_id := "R9", route_short_name := "9"
    crowding_level := "full", latitude := 53, longitude := -6, reported_at := 2 }

/-- Scenario S4, report 3: `standing` on route `R9`. -/
def rep_standing : StoredCrowdReport :=
  { id := "V3:1", vehicle_id := "V3", route_id := "R9", route_short_name := "9"
    crowding_level := "standing", latitude := 53, longitude := -6, reported_at := 1 }

/-- The crowding snapshot aggregated from the three S4 reports. -/
def surge_snap : CrowdingSnapshot := crowding_snapshot 3 [rep_full1, rep_full2, rep_standing]

/-- A live vehicle `A` on route `R`. -/
def bunch_a : LiveVehicle :=
  { vehicle_id := "A", route_id := "R", route_short_name := "R", trip_id := none
    latitude := 0, longitude := 0, bearing := none, speed_kmh := none
    occupancy_status := "UNKNOWN", delay_seconds := 0, timestamp := some 0 }

/-- A live vehicle `B` on route `R`. -/
def bunch_b : LiveVehicle :=
  { vehicle_id := "B", route_id := "R", route_short_name := "R", trip_id := none
    latitude := 1, longitude := 1, bearing := none, speed_kmh := none
    occupancy_status := "UNKNOWN", delay_seconds := 0, timestamp := some 0 }

end BusIQ

namespace BusIQ

/-! ## Theorems -/

/-! ### Helper lemmas -/

theorem filterMap_option_map {α β : Type} (f : α → β) (l : List (Option α)) :
    l.filterMap (fun e => e.map f) = (l.filterMap id).map f := by
  induction l with
  | nil => rfl
  | cons e t ih => cases e <;> simp [ih]

theorem write_hashes_cons (v : VehicleRecord) (t : List VehicleRecord) (s : RedisState) :
    write_hashes (v :: t) s =
      write_hashes t
        { s with vehicle_hash := fun k => if k = v.vehicle_id then some v else s.vehicle_hash k } :=
  rfl

theorem write_hashes_miss (vs : List VehicleRecord) (s : RedisState) (k : String)
    (h : ∀ v ∈ vs, v.vehicle_id ≠ k) :
    (write_hashes vs s).vehicle_hash k = s.vehicle_hash k := by
  induction vs generalizing s with
  | nil => rfl
  | cons v t ih =>
    rw [write_hashes_cons, ih _ (fun w hw => h w (List.mem_cons_of_mem _ hw))]
    have hk : k ≠ v.vehicle_id := fun hk => h v (List.mem_cons_self _ _) hk.symm
    simp [hk]

theorem write_hashes_hit (vs : List VehicleRecord) (s : RedisState) (k : String)
    (h : k ∈ vs.map VehicleRecord.vehicle_id) :
    ∃ v ∈ vs, v.vehicle_id = k ∧ (write_hashes vs s).vehicle_hash k = some v := by
  induction vs generalizing s with
  | nil => simp at h
  | cons v t ih =>
    by_cases ht : k ∈ t.map VehicleRecord.vehicle_id
    · obtain ⟨w, hw, hwk, hh⟩ := ih
        { s with vehicle_hash := fun k2 => if k2 = v.vehicle_id then some v else s.vehicle_hash k2 }
        ht
      exact ⟨w, List.mem_cons_of_mem _ hw, hwk, hh⟩
    · have hk : k = v.vehicle_id := by
        rcases List.mem_map.mp h with ⟨w, hw, hwk⟩
        rcases List.mem_cons.mp hw with rfl | hwt
        · exact hwk.symm
        · exact absurd (List.mem_map.mpr ⟨w, hwt, hwk⟩) ht
      refine ⟨v, List.mem_cons_self _ _, hk.symm, ?_⟩
      rw [write_hashes_cons,
        write_hashes_miss _ _ _ (fun w hw hwk => ht (List.mem_map.mpr ⟨w, hw, hwk⟩))]
      simp [hk]

theorem action_scan_some (act : String) (now : ℤ) (iid : String) :
    ∀ (l : List Intervention) (r2 : Intervention) (l2 : List Intervention),
      action_scan act now iid l = some (r2, l2) → r2.status = act ++ "d" := by
  intro l
  induction l with
  | nil => intro r2 l2 h; simp [action_scan] at h
  | cons r rest ih =>
    intro r2 l2 h
    by_cases hid : r.id = iid
    · simp [action_scan, hid] at h
      rw [← h.1]
    · simp only [action_scan, hid, if_neg] at h
      rcases hscan : action_scan act now iid rest with _ | ⟨r3, rest3⟩
      · rw [hscan] at h; simp at h
      · rw [hscan] at h
        simp at h
        rw [← h.1]
        exact ih r3 rest3 hscan

theorem action_intervention_some (s : EngineState) (iid act : String) (now : ℤ)
    (r0 : Intervention) (s2 : EngineState)
    (h : action_intervention s iid act now = (some r0, s2)) :
    r0.status = act ++ "d" ∧ s2.history = (r0 :: s.history).take 200 := by
  rcases hscan : action_scan act now iid s.active with _ | ⟨r2, active2⟩
  · rw [action_intervention, hscan] at h; simp at h
  · rw [action_intervention, hscan] at h
    have h1 : some r2 = some r0 := congrArg Prod.fst h
    have h2 : ({ active := active2, history := (r2 :: s.history).take 200 } : EngineState) = s2 :=
      congrArg Prod.snd h
    obtain rfl := Option.some.inj h1
    exact ⟨action_scan_some act now iid s.active _ active2 hscan, by rw [← h2]⟩

/-! ### C1 — action lifecycle writes the status string `action + "d"` -/

/-- C1: evaluated at the failing input — a dismiss action on the active
intervention `a1` — `action_intervention` stores the status `"dismissd"`
(the source computes `action + "d"`), not the `"dismissed"` that the claim,
the source's own inline comment and its `InterventionStatus.DISMISSED`
enum member all specify. -/
theorem dismiss_action_writes_dismissd :
    (action_intervention engine_one "a1" "dismiss" 5).1.map Intervention.status
        = some "dismissd" ∧
      (action_intervention engine_one "a1" "dismiss" 5).1.map Intervention.status
        ≠ some "dismissed" := by
  constructor
  · rfl
  · decide

/-! ### C2 — fleet rebuild on a poll tick -/

/-- C2 (counterexample): a poll tick that parses zero vehicles performs no
Redis write at all (`if self.redis and vehicles`), so the fleet set keeps
its stale previous members instead of becoming the (empty) set of ids
parsed in that tick. -/
theorem empty_tick_keeps_stale_fleet :
    (poll_write 0 [] stale_redis).fleet = {"V9"} ∧
      (([] : List VehicleRecord).map VehicleRecord.vehicle_id).toFinset = (∅ : Finset String) ∧
      (poll_write 0 [] stale_redis).fleet ≠
        (([] : List VehicleRecord).map VehicleRecord.vehicle_id).toFinset :=
  ⟨rfl, rfl, Finset.singleton_ne_empty _⟩

/-- C2 (amended): on every poll tick that parses at least one vehicle, the
fleet set afterwards is exactly the set of parsed vehicle ids, and every id
in the set has its vehicle hash written within the same pipeline. -/
theorem poll_write_rebuilds_fleet (now : ℤ) (vs : List VehicleRecord) (s : RedisState)
    (h : vs ≠ []) :
    (poll_write now vs s).fleet = (vs.map VehicleRecord.vehicle_id).toFinset ∧
      ∀ k ∈ (poll_write now vs s).fleet,
        ∃ v ∈ vs, v.vehicle_id = k ∧ (poll_write now vs s).vehicle_hash k = some v := by
  have hne : vs.isEmpty = false := by
    cases vs with
    | nil => exact absurd rfl h
    | cons a t => rfl
  have hids : (vs.map VehicleRecord.vehicle_id).isEmpty = false := by
    cases vs with
    | nil => exact absurd rfl h
    | cons a t => rfl
  have hpoll : poll_write now vs s = write_to_redis now vs s := by
    rw [poll_write, hne]; rfl
  have hfleet : (write_to_redis now vs s).fleet = (vs.map VehicleRecord.vehicle_id).toFinset := by
    rw [write_to_redis]; simp [hids]
  have hhash : (write_to_redis now vs s).vehicle_hash = (write_hashes vs s).vehicle_hash := by
    rw [write_to_redis]; simp [hids]
  refine ⟨by rw [hpoll, hfleet], ?_⟩
  intro k hk
  rw [hpoll, hfleet] at hk
  obtain ⟨v, hv, hvk, hh⟩ := write_hashes_hit vs s k (List.mem_toFinset.mp hk)
  exact ⟨v, hv, hvk, by rw [hpoll, hhash]; exact hh⟩

/-- C2 witness: the amended theorem applied to a one-vehicle tick. -/
theorem poll_write_rebuilds_fleet_witness :
    ([rec_v1] ≠ ([] : List VehicleRecord)) ∧
      ((poll_write 0 [rec_v1] stale_redis).fleet
          = ([rec_v1].map VehicleRecord.vehicle_id).toFinset ∧
        ∀ k ∈ (poll_write 0 [rec_v1] stale_redis).fleet,
          ∃ v ∈ [rec_v1], v.vehicle_id = k ∧
            (poll_write 0 [rec_v1] stale_redis).vehicle_hash k = some v) :=
  ⟨by simp, poll_write_rebuilds_fleet 0 [rec_v1] stale_redis (by simp)⟩

/-! ### C6 — actioned interventions survive a generation pass -/

/-- C6: an intervention that has been actioned (status `≠ "pending"`) is not
lost when the engine stores a new active set: `_store_interventions` leaves
history untouched, and the actioned record sits in history from the moment
of the action. -/
theorem actioned_record_not_overwritten (s : EngineState) (iid act : String) (now : ℤ)
    (r0 : Intervention) (s2 : EngineState) (new : List Intervention)
    (hact : act = "approve" ∨ act = "dismiss")
    (h : action_intervention s iid act now = (some r0, s2)) :
    r0.status ≠ "pending" ∧
      (store_interventions new s2).history = s2.history ∧
      r0 ∈ (store_interventions new s2).history := by
  obtain ⟨hstatus, hhist⟩ := action_intervention_some s iid act now r0 s2 h
  refine ⟨?_, rfl, ?_⟩
  · rw [hstatus]
    rcases hact with rfl | rfl <;> decide
  · show r0 ∈ s2.history
    rw [hhist, List.take_cons (by norm_num)]
    exact List.mem_cons_self _ _

/-- C6 witness: approve the pending intervention `a1`, then store a fresh
(empty) active set; the approved record is still in history. -/
theorem actioned_record_not_overwritten_witness :
    (("approve" : String) = "approve" ∨ ("approve" : String) = "dismiss") ∧
      action_intervention engine_one "a1" "approve" 5
        = (some approved_a1, { active := [approved_a1], history := [approved_a1] }) ∧
      (approved_a1.status ≠ "pending" ∧
        (store_interventions [] ⟨[approved_a1], [approved_a1]⟩).history
          = (⟨[approved_a1], [approved_a1]⟩ : EngineState).history ∧
        approved_a1 ∈ (store_interventions [] ⟨[approved_a1], [approved_a1]⟩).history) :=
  ⟨Or.inl rfl, by decide,
    actioned_record_not_overwritten engine_one "a1" "approve" 5 approved_a1
      ⟨[approved_a1], [approved_a1]⟩ [] (Or.inl rfl) (by decide)⟩

/-! ### C7 — Headway Regularity denominator -/

/-- C7 (counterexample): with 5 vehicles and 1 bunching pair the code's
denominator is `max(1, 5/10) = 1`, giving a score of 75, while the claimed
formula `pairs / (vehicles/10)` gives 50. -/
theorem headway_score_denominator_counterexample :
    bunching_score 5 1 = 75 ∧ spec_headway_score 5 1 = 50 ∧
      bunching_score 5 1 ≠ spec_headway_score 5 1 := by
  refine ⟨?_, ?_, ?_⟩ <;> norm_num [bunching_score, spec_headway_score]

/-- C7 (amended): the Headway Regularity raw score is
`max(0, 100 − (pairs / max(1, vehicles/10)) · 25)` for a positive vehicle
count — so for 1–10 vehicles the divisor is 1, not `vehicles/10` — it is 100
for zero vehicles, and it agrees with the claimed formula whenever
`vehicles ≥ 10`. -/
theorem headway_score_amended (v p : ℕ) :
    (0 < v → bunching_score v p = max 0 (100 - ((p : ℚ) / max 1 ((v : ℚ) / 10)) * 25)) ∧
      (v = 0 → bunching_score v p = 100) ∧
      (10 ≤ v → bunching_score v p = spec_headway_score v p) := by
  refine ⟨fun h => by rw [bunching_score, if_pos h], fun h => by rw [bunching_score, if_neg (by omega)], fun h => ?_⟩
  have hv : 0 < v := by omega
  have h10 : (10 : ℚ) ≤ (v : ℚ) := by exact_mod_cast h
  have h1 : (1 : ℚ) ≤ (v : ℚ) / 10 := by linarith
  rw [bunching_score, spec_headway_score, if_pos hv, if_pos hv, max_eq_right h1]

/-- C7 witness: the amended theorem applied at 12 vehicles and 1 pair. -/
theorem headway_score_amended_witness :
    (10 ≤ 12 ∧ 0 < 12) ∧
      bunching_score 12 1 = max 0 (100 - ((1 : ℚ) / max 1 ((12 : ℚ) / 10)) * 25) ∧
      bunching_score 12 1 = spec_headway_score 12 1 :=
  ⟨⟨by norm_num, by norm_num⟩, (headway_score_amended 12 1).1 (by norm_num),
    (headway_score_amended 12 1).2.2 (by norm_num)⟩

/-! ### C9 — HTTP status of the intervention-action endpoint -/

/-- C9 (counterexample): the intervention endpoint returns HTTP 200 both for
an id that is not in the active list and for an action outside
`approve`/`dismiss` — it returns plain error dicts, never a 404 or any other
4xx. -/
theorem intervention_endpoint_returns_200 :
    (update_intervention empty_engine "x1" "approve" 0).1.status_code = 200 ∧
      (update_intervention empty_engine "x1" "approve" 0).1.status_code ≠ 404 ∧
      (update_intervention empty_engine "x1" "teleport" 0).1.status_code = 200 ∧
      ¬(400 ≤ (update_intervention empty_engine "x1" "teleport" 0).1.status_code ∧
          (update_intervention empty_engine "x1" "teleport" 0).1.status_code < 500) := by
  refine ⟨rfl, by decide, rfl, by decide⟩

/-- C9 (amended): the intervention-action endpoint answers HTTP 200 with an
error body for an unknown id or an invalid action (and 200 with the record
on success); only the single-vehicle endpoint surfaces an unknown id as
HTTP 404. -/
theorem endpoint_status_amended (s : EngineState) (iid act : String) (now : ℤ)
    (store : String → Option LiveVehicle) (vid : String) (h : store vid = none) :
    (update_intervention s iid act now).1.status_code = 200 ∧
      (get_bus store vid).status_code = 404 := by
  constructor
  · rw [update_intervention]
    split
    · rfl
    · rcases hai : action_intervention s iid act now with ⟨fst, snd⟩
      cases fst <;> rfl
  · rw [get_bus, h]

/-- C9 witness: the amended theorem applied to an empty engine state and an
empty live store. -/
theorem endpoint_status_amended_witness :
    ((fun _ : String => (none : Option LiveVehicle)) "v1" = none) ∧
      ((update_intervention empty_engine "x1" "approve" 0).1.status_code = 200 ∧
        (get_bus (fun _ => none) "v1").status_code = 404) :=
  ⟨rfl, endpoint_status_amended empty_engine "x1" "approve" 0 (fun _ => none) "v1" rfl⟩

/-! ### C10 — zero bearing and zero speed stored as null -/

/-- C10 (counterexample): a feed bearing of `0.5` (non-zero, so the Python
truthiness guard passes) is truncated by `int()` to `0`, and a feed speed of
`0.01 m/s` becomes `round(0.036, 1) = 0.0` — so poller records can carry
`bearing = 0` and `speed_kmh = 0`. -/
theorem nonzero_bearing_truncates_to_zero :
    (parse_vehicle_positions empty_catalog [some bearing_half_entity] no_delays).map
        VehicleRecord.bearing = [some 0] ∧
      (parse_vehicle_positions empty_catalog [some bearing_half_entity] no_delays).map
        VehicleRecord.speed_kmh = [some 0] := by
  have h1 : parse_vehicle_positions empty_catalog [some bearing_half_entity] no_delays
      = [mkVehicleRecord empty_catalog no_delays bearing_half_entity] := rfl
  rw [h1]
  constructor <;>
    norm_num [mkVehicleRecord, bearing_half_entity, pyInt, pyRoundTo, pyRoundInt]

/-- C10 (amended): a feed bearing equal to 0 is stored as null and a feed
speed equal to 0 is stored as null; however `int()` truncation (bearing) and
rounding to one decimal (speed) can still produce stored values of 0 from
non-zero feed values, so the consequence claimed does not hold. -/
theorem zero_bearing_speed_stored_null (c : StaticCatalog) (dm : String → Option ℤ)
    (entities : List (Option VehicleEntity)) (vp : VehicleEntity) :
    (vp.position.bearing = 0 → (mkVehicleRecord c dm vp).bearing = none) ∧
      (vp.position.speed = 0 → (mkVehicleRecord c dm vp).speed_kmh = none) ∧
      parse_vehicle_positions c entities dm
        = (entities.filterMap id).map (mkVehicleRecord c dm) := by
  refine ⟨fun h => by simp [mkVehicleRecord, h], fun h => by simp [mkVehicleRecord, h], ?_⟩
  exact filterMap_option_map _ entities

/-! ### C3 — TripUpdates delay merge -/

theorem tripKeys_cons_none (e : TUEntity) (rest : List TUEntity)
    (h : e.trip_update = none) : tripKeys (e :: rest) = tripKeys rest := by
  simp [tripKeys, List.filterMap_cons, h]

theorem tripKeys_cons_blank (e : TUEntity) (rest : List TUEntity) (tu : TripUpdate)
    (h : e.trip_update = some tu) (h2 : tuTripId tu = "") :
    tripKeys (e :: rest) = tripKeys rest := by
  simp [tripKeys, List.filterMap_cons, h, h2]

theorem tripKeys_cons_key (e : TUEntity) (rest : List TUEntity) (tu : TripUpdate)
    (h : e.trip_update = some tu) (h2 : tuTripId tu ≠ "") :
    tripKeys (e :: rest) = tuTripId tu :: tripKeys rest := by
  simp [tripKeys, List.filterMap_cons, h, h2]

theorem key_mem_tripKeys (l : List TUEntity) (e : TUEntity) (tu : TripUpdate)
    (he : e ∈ l) (htu : e.trip_update = some tu) (htid : tuTripId tu ≠ "") :
    tuTripId tu ∈ tripKeys l :=
  List.mem_filterMap.mpr ⟨e, he, by rw [htu]; simp [htid]⟩

theorem tuStep_none (m : String → Option ℤ) (e : TUEntity)
    (h : e.trip_update = none) : tuStep m e = m := by
  rw [tuStep, h]

theorem tuStep_some (m : String → Option ℤ) (e : TUEntity) (tu : TripUpdate)
    (h : e.trip_update = some tu) :
    tuStep m e =
      if tuTripId tu = "" then m
      else if 0 < maxDelay tu then
        fun t => if t = tuTripId tu then some (maxDelay tu) else m t
      else m := by
  rw [tuStep, h]

theorem tuStep_ne (m : String → Option ℤ) (e : TUEntity) (t : String)
    (h : ∀ tu, e.trip_update = some tu → tuTripId tu ≠ "" → t ≠ tuTripId tu) :
    tuStep m e t = m t := by
  rcases he : e.trip_update with _ | tu
  · rw [tuStep_none m e he]
  · rw [tuStep_some m e tu he]
    by_cases h2 : tuTripId tu = ""
    · simp [h2]
    · by_cases h3 : 0 < maxDelay tu
      · simp [h2, h3, h tu he h2]
      · simp [h2, h3]

theorem tuStep_pos (m : String → Option ℤ) (e : TUEntity)
    (h0 : ∀ t d, m t = some d → 0 < d) :
    ∀ t d, tuStep m e t = some d → 0 < d := by
  intro t d h
  rcases he : e.trip_update with _ | tu
  · rw [tuStep_none m e he] at h
    exact h0 t d h
  · rw [tuStep_some m e tu he] at h
    by_cases h2 : tuTripId tu = ""
    · rw [if_pos h2] at h
      exact h0 t d h
    · rw [if_neg h2] at h
      by_cases h3 : 0 < maxDelay tu
      · rw [if_pos h3] at h
        by_cases h4 : t = tuTripId tu
        · simp [h4] at h
          omega
        · simp [h4] at h
          exact h0 t d h
      · rw [if_neg h3] at h
        exact h0 t d h

theorem tu_fold_pos (entities : List TUEntity) (m : String → Option ℤ)
    (h0 : ∀ t d, m t = some d → 0 < d) :
    ∀ t d, entities.foldl tuStep m t = some d → 0 < d := by
  induction entities generalizing m with
  | nil => exact h0
  | cons e rest ih => exact ih (tuStep m e) (tuStep_pos m e h0)

theorem tu_fold_miss (entities : List TUEntity) (m : String → Option ℤ) (t : String)
    (h : t ∉ tripKeys entities) :
    entities.foldl tuStep m t = m t := by
  induction entities generalizing m with
  | nil => rfl
  | cons e rest ih =>
    have hrest : t ∉ tripKeys rest := by
      intro hmem
      apply h
      rcases he : e.trip_update with _ | tu
      · rw [tripKeys_cons_none e rest he]; exact hmem
      · by_cases h2 : tuTripId tu = ""
        · rw [tripKeys_cons_blank e rest tu he h2]; exact hmem
        · rw [tripKeys_cons_key e rest tu he h2]; exact List.mem_cons_of_mem _ hmem
    have hne : ∀ tu, e.trip_update = some tu → tuTripId tu ≠ "" → t ≠ tuTripId tu := by
      intro tu htu htid heq
      apply h
      rw [tripKeys_cons_key e rest tu htu htid, heq]
      exact List.mem_cons_self _ _
    show rest.foldl tuStep (tuStep m e) t = m t
    rw [ih (tuStep m e) hrest, tuStep_ne m e t hne]

theorem tu_fold_val (entities : List TUEntity) (m : String → Option ℤ)
    (hnd : (tripKeys entities).Nodup) :
    ∀ e ∈ entities, ∀ tu, e.trip_update = some tu → tuTripId tu ≠ "" →
      entities.foldl tuStep m (tuTripId tu)
        = if 0 < maxDelay tu then some (maxDelay tu) else m (tuTripId tu) := by
  induction entities generalizing m with
  | nil => intro e he; simp at he
  | cons e2 rest ih =>
    intro e he tu htu htid
    rcases List.mem_cons.mp he with rfl | herest
    · have hkeys := tripKeys_cons_key e rest tu htu htid
      have hnotin : tuTripId tu ∉ tripKeys rest := by
        rw [hkeys] at hnd
        exact (List.nodup_cons.mp hnd).1
      show rest.foldl tuStep (tuStep m e) (tuTripId tu) = _
      rw [tu_fold_miss rest _ _ hnotin, tuStep_some m e tu htu, if_neg htid]
      by_cases h3 : 0 < maxDelay tu
      · simp [h3]
      · simp [h3]
    · have hkey : tuTripId tu ∈ tripKeys rest := key_mem_tripKeys rest e tu herest htu htid
      have hnd2 : (tripKeys rest).Nodup := by
        rcases he2 : e2.trip_update with _ | tu2
        · rwa [tripKeys_cons_none e2 rest he2] at hnd
        · by_cases h2 : tuTripId tu2 = ""
          · rwa [tripKeys_cons_blank e2 rest tu2 he2 h2] at hnd
          · rw [tripKeys_cons_key e2 rest tu2 he2 h2] at hnd
            exact (List.nodup_cons.mp hnd).2
      have hstep : tuStep m e2 (tuTripId tu) = m (tuTripId tu) := by
        apply tuStep_ne
        intro tu2 htu2 htid2 heq
        rw [tripKeys_cons_key e2 rest tu2 htu2 htid2] at hnd
        exact (List.nodup_cons.mp hnd).1 (heq ▸ hkey)
      show rest.foldl tuStep (tuStep m e2) (tuTripId tu) = _
      rw [ih (tuStep m e2) hnd2 e herest tu htu htid, hstep]

theorem mk_delay_eq (c : StaticCatalog) (dm : String → Option ℤ) (vp : VehicleEntity) :
    (mkVehicleRecord c dm vp).delay_seconds
      = (match vp.trip.map TripDescriptor.trip_id with
          | some t => if t ≠ "" then (dm t).getD 0 else 0
          | none => 0) := rfl

theorem mk_trip_eq (c : StaticCatalog) (dm : String → Option ℤ) (vp : VehicleEntity) :
    (mkVehicleRecord c dm vp).trip_id = vp.trip.map TripDescriptor.trip_id := rfl

theorem vehicle_delay_cases (c : StaticCatalog) (dm : String → Option ℤ)
    (ves : List (Option VehicleEntity)) (hdm : ∀ t d, dm t = some d → 0 ≤ d) :
    ∀ v ∈ parse_vehicle_positions c ves dm,
      0 ≤ v.delay_seconds ∧
        ((∃ t, v.trip_id = some t ∧ t ≠ "" ∧ v.delay_seconds = (dm t).getD 0) ∨
          v.delay_seconds = 0) := by
  intro v hv
  obtain ⟨oe, he, hmap⟩ := List.mem_filterMap.mp hv
  rcases oe with _ | e
  · simp at hmap
  · have hv2 : v = mkVehicleRecord c dm e := by
      simp at hmap
      exact hmap.symm
    subst hv2
    rcases he2 : e.trip with _ | td
    · rw [mk_delay_eq, he2]
      exact ⟨le_refl 0, Or.inr rfl⟩
    · by_cases ht : td.trip_id = ""
      · rw [mk_delay_eq, he2]
        simp [ht]
      · constructor
        · rcases hd : dm td.trip_id with _ | d
          · rw [mk_delay_eq, he2]
            simp [ht, hd]
          · rw [mk_delay_eq, he2]
            show 0 ≤ if td.trip_id ≠ "" then (dm td.trip_id).getD 0 else 0
            rw [if_pos ht, hd]
            exact hdm td.trip_id d hd
        · exact Or.inl ⟨td.trip_id, by rw [mk_trip_eq, he2]; rfl, ht,
            by rw [mk_delay_eq, he2]; simp [ht]⟩

/-- C3: the poller records `trip_id ↦ max(|arrival.delay|, |departure.delay|)`
over all stop time updates only when that maximum is positive; every parsed
vehicle's `delay_seconds` is the map value for its trip id (or `0` when the
trip is absent or blank), hence non-negative; and when the TripUpdates
request raises or returns HTTP 429 the delay map is empty, so every vehicle
of that tick stores `delay_seconds = 0`, no error propagating. -/
theorem trip_update_delay_merge (entities : List TUEntity)
    (hnd : (tripKeys entities).Nodup) :
    (∀ t d, parse_trip_updates (some entities) t = some d → 0 < d) ∧
      (∀ e ∈ entities, ∀ tu, e.trip_update = some tu → tuTripId tu ≠ "" →
        parse_trip_updates (some entities) (tuTripId tu)
          = if 0 < maxDelay tu then some (maxDelay tu) else none) ∧
      (∀ (c : StaticCatalog) (ves : List (Option VehicleEntity)),
        ∀ v ∈ parse_vehicle_positions c ves (parse_trip_updates (some entities)),
          0 ≤ v.delay_seconds ∧
            ((∃ t, v.trip_id = some t ∧ t ≠ "" ∧
                v.delay_seconds = ((parse_trip_updates (some entities)) t).getD 0) ∨
              v.delay_seconds = 0)) ∧
      (∀ r : TUFetch, (r = TUFetch.exn ∨ ∃ content, r = TUFetch.resp 429 content) →
        (∀ t, parse_trip_updates (tu_feed r) t = none) ∧
          ∀ (c : StaticCatalog) (ves : List (Option VehicleEntity)),
            ∀ v ∈ parse_vehicle_positions c ves (parse_trip_updates (tu_feed r)),
              v.delay_seconds = 0) := by
  have hpos : ∀ t d, parse_trip_updates (some entities) t = some d → 0 < d :=
    tu_fold_pos entities (fun _ => none) (by intro t d h; simp at h)
  refine ⟨hpos, ?_, ?_, ?_⟩
  · intro e he tu htu htid
    exact tu_fold_val entities (fun _ => none) hnd e he tu htu htid
  · intro c ves v hv
    exact vehicle_delay_cases c _ ves
      (fun t d h => le_of_lt (hpos t d h)) v hv
  · intro r hr
    have hfeed : tu_feed r = none := by
      rcases hr with rfl | ⟨content, rfl⟩
      · rfl
      · rfl
    rw [hfeed]
    refine ⟨fun t => rfl, ?_⟩
    intro c ves v hv
    have := vehicle_delay_cases c (parse_trip_updates none) ves
      (by intro t d h; simp [parse_trip_updates] at h) v hv
    rcases this.2 with ⟨t, _, _, hd⟩ | hd
    · rw [hd]; rfl
    · exact hd

/-- C3 witness: on the example feed the trip `T1` is mapped to
`max(|30|, |−45|) = 45`. -/
theorem trip_update_delay_merge_witness :
    (tripKeys tu_example).Nodup ∧ parse_trip_updates (some tu_example) "T1" = some 45 := by
  refine ⟨by decide, ?_⟩
  have h := (trip_update_delay_merge tu_example (by decide)).2.1
    { trip_update := some
        { trip := some { trip_id := "T1", route_id := "R1" }
          stop_time_update := [{ arrival := some 30, departure := some (-45) }] } }
    (List.mem_cons_self _ _) _ rfl (by decide)
  simpa using h

/-! ### C5 — ghost detection -/

theorem ghost_scan_ghosts (now : ℤ) (vehicles : List LiveVehicle) :
    (ghost_scan now vehicles).1
      = (vehicles.filter fun v => 120 < vehicleAge now v).map (mkGhost now) := by
  induction vehicles with
  | nil => rfl
  | cons v rest ih =>
    by_cases h : 120 < vehicleAge now v
    · simp [ghost_scan, h, List.filter_cons, ih]
    · by_cases h2 : v.route_id ≠ "" <;> simp [ghost_scan, h, h2, List.filter_cons, ih]

theorem ghost_scan_live_ids (now : ℤ) (vehicles : List LiveVehicle) :
    (ghost_scan now vehicles).2.1
      = ((vehicles.filter fun v => vehicleAge now v ≤ 120 ∧ v.route_id ≠ "").map
          LiveVehicle.route_id).toFinset := by
  induction vehicles with
  | nil => rfl
  | cons v rest ih =>
    by_cases h : 120 < vehicleAge now v
    · have hc : ¬(vehicleAge now v ≤ 120 ∧ v.route_id ≠ "") := fun hc =>
        absurd h (not_lt.mpr hc.1)
      simp [ghost_scan, h, List.filter_cons, hc, ih]
    · have hage : vehicleAge now v ≤ 120 := not_lt.mp h
      by_cases h2 : v.route_id ≠ ""
      · simp [ghost_scan, h, h2, List.filter_cons, hage, ih]
      · simp [ghost_scan, h, h2, List.filter_cons, hage, ih]

theorem detect_ghost_routes_eq (c : StaticCatalog) (now : ℤ) (vehicles : List LiveVehicle) :
    (detect_ghost_buses c now vehicles).ghost_routes.map GhostRoute.route_id
      = Finset.sort (· ≤ ·)
          ((c.route_map.map Prod.fst).toFinset \ (ghost_scan now vehicles).2.1) := by
  show (List.map GhostRoute.route_id (List.map _ (Finset.sort (· ≤ ·) _))) = _
  rw [List.map_map]
  exact List.map_id _

/-- C5: ghost detection produces exactly the signal-lost records of the
vehicles older than 120 s (and none for fresh ones); the schedule-only ghost
routes are exactly the catalog route ids minus the route ids of fresh
vehicles with a non-empty route, listed in lexical order; and
`total_routes_with_buses` counts the distinct live route ids. -/
theorem detect_ghost_buses_correct (c : StaticCatalog) (now : ℤ)
    (vehicles : List LiveVehicle) (hts : ∀ v ∈ vehicles, v.timestamp.isSome) :
    (detect_ghost_buses c now vehicles).ghost_buses
        = (vehicles.filter fun v => 120 < vehicleAge now v).map (mkGhost now) ∧
      List.Sorted (· ≤ ·)
        ((detect_ghost_buses c now vehicles).ghost_routes.map GhostRoute.route_id) ∧
      (∀ rid : String,
        rid ∈ (detect_ghost_buses c now vehicles).ghost_routes.map GhostRoute.route_id ↔
          rid ∈ c.route_map.map Prod.fst ∧
            rid ∉ (vehicles.filter fun v => vehicleAge now v ≤ 120 ∧ v.route_id ≠ "").map
              LiveVehicle.route_id) ∧
      (detect_ghost_buses c now vehicles).total_routes_with_buses
        = ((vehicles.filter fun v => vehicleAge now v ≤ 120 ∧ v.route_id ≠ "").map
            LiveVehicle.route_id).toFinset.card := by
  refine ⟨ghost_scan_ghosts now vehicles, ?_, ?_, ?_⟩
  · rw [detect_ghost_routes_eq]
    exact Finset.sort_sorted _ _
  · intro rid
    rw [detect_ghost_routes_eq, Finset.mem_sort, Finset.mem_sdiff, ghost_scan_live_ids,
      List.mem_toFinset, List.mem_toFinset]
  · show (ghost_scan now vehicles).2.1.card = _
    rw [ghost_scan_live_ids]

/-- C5 witness: the S3-style scenario — catalog routes R1, R2, R3 and one
fresh vehicle on R1 — has exactly one route with buses. -/
theorem detect_ghost_buses_correct_witness :
    (∀ v ∈ [live_r1], v.timestamp.isSome) ∧
      (detect_ghost_buses catalog_r123 100 [live_r1]).total_routes_with_buses = 1 := by
  refine ⟨by decide, ?_⟩
  have h := (detect_ghost_buses_correct catalog_r123 100 [live_r1] (by decide)).2.2.2
  rw [h]
  decide

/-! ### C8 — SURGE generation -/

theorem surge_of_props (hav : ℚ → ℚ → ℚ → ℚ → ℚ) (now : ℤ) (snap : CrowdingSnapshot)
    (s : RouteCrowdingSummary) (i : Intervention)
    (h : surge_of hav now snap s = some i) :
    i.route_id = s.route_id ∧ i.itype = "SURGE" ∧ i.status = "pending" ∧
      i.priority = (if 3 ≤ (s.levels.lookup "full").getD 0 then "critical" else "high") ∧
      i.passengers_affected
        = pyInt ((((s.levels.lookup "full").getD 0 + (s.levels.lookup "standing").getD 0 : ℕ) : ℚ)
            * 75 * (9/10)) ∧
      i.confidence = 72/100 ∧ i.wait_time_impact_seconds = -180 ∧ surge_trigger s := by
  by_cases ht : surge_trigger s
  · simp only [surge_of, if_pos ht] at h
    obtain rfl := Option.some.inj h
    exact ⟨rfl, rfl, rfl, rfl, rfl, rfl, rfl, ht⟩
  · simp only [surge_of, if_neg ht] at h
    exact absurd h (by simp)

theorem surge_of_isSome (hav : ℚ → ℚ → ℚ → ℚ → ℚ) (now : ℤ) (snap : CrowdingSnapshot)
    (s : RouteCrowdingSummary) :
    (surge_of hav now snap s).isSome ↔ surge_trigger s := by
  by_cases ht : surge_trigger s <;> simp [surge_of, ht]

theorem surge_countP_zero (hav : ℚ → ℚ → ℚ → ℚ → ℚ) (now : ℤ) (snap : CrowdingSnapshot)
    (l : List RouteCrowdingSummary) (rid : String) (h : ∀ s ∈ l, s.route_id ≠ rid) :
    (l.filterMap (surge_of hav now snap)).countP (fun i => i.route_id = rid) = 0 := by
  rw [List.countP_eq_zero]
  intro i hi
  obtain ⟨s, hs, hsome⟩ := List.mem_filterMap.mp hi
  have hr := (surge_of_props hav now snap s i hsome).1
  simp only [decide_eq_true_eq]
  rw [hr]
  exact h s hs

theorem surge_countP (hav : ℚ → ℚ → ℚ → ℚ → ℚ) (now : ℤ) (snap : CrowdingSnapshot)
    (l : List RouteCrowdingSummary) (s : RouteCrowdingSummary) :
    (l.map RouteCrowdingSummary.route_id).Nodup → s ∈ l →
      (l.filterMap (surge_of hav now snap)).countP (fun i => i.route_id = s.route_id)
        = if surge_trigger s then 1 else 0 := by
  induction l with
  | nil => intro _ hs; simp at hs
  | cons a t ih =>
    intro hnd hs
    rw [List.map_cons, List.nodup_cons] at hnd
    rcases List.mem_cons.mp hs with heq | hst
    · rw [heq]
      have hzero : (t.filterMap (surge_of hav now snap)).countP
          (fun i => i.route_id = a.route_id) = 0 := by
        apply surge_countP_zero
        intro s2 hs2 heq
        exact hnd.1 (List.mem_map.mpr ⟨s2, hs2, heq⟩)
      by_cases ht : surge_trigger a
      · obtain ⟨i, hi⟩ : ∃ i, surge_of hav now snap a = some i := by
          rcases h2 : surge_of hav now snap a with _ | i
          · have := (surge_of_isSome hav now snap a).mpr ht
            rw [h2] at this
            simp at this
          · exact ⟨i, rfl⟩
        have hroute := (surge_of_props hav now snap a i hi).1
        simp [List.filterMap_cons, hi, List.countP_cons, hzero, hroute, ht]
      · have hnone : surge_of hav now snap a = none := by
          rcases h2 : surge_of hav now snap a with _ | i
          · rfl
          · exact absurd ((surge_of_props hav now snap a i h2).2.2.2.2.2.2.2) ht
        simp [List.filterMap_cons, hnone, hzero, ht]
    · have hne : a.route_id ≠ s.route_id := by
        intro heq
        exact hnd.1 (heq ▸ List.mem_map.mpr ⟨s, hst, rfl⟩)
      have ih2 := ih hnd.2 hst
      rcases h2 : surge_of hav now snap a with _ | i
      · simpa [List.filterMap_cons, h2] using ih2
      · have hroute := (surge_of_props hav now snap a i h2).1
        have hne2 : ¬(i.route_id = s.route_id) := by rw [hroute]; exact hne
        simp [List.filterMap_cons, h2, List.countP_cons, hne2]
        exact ih2

/-- C8: a SURGE is generated exactly once for every route summary with
`full ≥ 2` or `full + standing ≥ 3` and never otherwise; its priority is
critical iff `full ≥ 3` (else high), `passengers_affected =
int((full + standing) · 75 · 0.9)`, confidence 0.72, wait-time impact
−180 s; and the S4 scenario (reports full, full, standing on one route)
yields exactly one SURGE with priority high and 202 passengers. -/
theorem surge_generation_correct (hav : ℚ → ℚ → ℚ → ℚ → ℚ) (now : ℤ)
    (snap : CrowdingSnapshot)
    (hnd : (snap.route_summaries.map RouteCrowdingSummary.route_id).Nodup) :
    (∀ s ∈ snap.route_summaries,
      (generate_surge hav now snap).countP (fun i => i.route_id = s.route_id)
        = if 2 ≤ (s.levels.lookup "full").getD 0 ∨
              3 ≤ (s.levels.lookup "full").getD 0 + (s.levels.lookup "standing").getD 0
          then 1 else 0) ∧
      (∀ i ∈ generate_surge hav now snap, ∃ s ∈ snap.route_summaries,
        (2 ≤ (s.levels.lookup "full").getD 0 ∨
            3 ≤ (s.levels.lookup "full").getD 0 + (s.levels.lookup "standing").getD 0) ∧
          i.route_id = s.route_id ∧ i.itype = "SURGE" ∧ i.status = "pending" ∧
          i.priority = (if 3 ≤ (s.levels.lookup "full").getD 0 then "critical" else "high") ∧
          i.passengers_affected
            = pyInt ((((s.levels.lookup "full").getD 0
                  + (s.levels.lookup "standing").getD 0 : ℕ) : ℚ) * 75 * (9/10)) ∧
          i.confidence = 72/100 ∧ i.wait_time_impact_seconds = -180) ∧
      ((generate_surge hav now surge_snap).length = 1 ∧
        ∀ i ∈ generate_surge hav now surge_snap,
          i.priority = "high" ∧ i.passengers_affected = 202) := by
  refine ⟨?_, ?_, ?_⟩
  · intro s hs
    exact surge_countP hav now snap snap.route_summaries s hnd hs
  · intro i hi
    obtain ⟨s, hs, hsome⟩ := List.mem_filterMap.mp hi
    obtain ⟨h1, h2, h3, h4, h5, h6, h7, h8⟩ := surge_of_props hav now snap s i hsome
    exact ⟨s, hs, h8, h1, h2, h3, h4, h5, h6, h7⟩
  · have hsum : surge_snap.route_summaries
        = [mkSummary "R9"
            { route_short_name := "9"
              levels := [("empty", 0), ("seats", 0), ("standing", 1), ("full", 2)]
              latest_level := "full" }] := rfl
    have htrig : surge_trigger (mkSummary "R9"
        { route_short_name := "9"
          levels := [("empty", 0), ("seats", 0), ("standing", 1), ("full", 2)]
          latest_level := "full" }) := by
      unfold surge_trigger
      left
      decide
    obtain ⟨i, hi⟩ : ∃ i, surge_of hav now surge_snap (mkSummary "R9"
        { route_short_name := "9"
          levels := [("empty", 0), ("seats", 0), ("standing", 1), ("full", 2)]
          latest_level := "full" }) = some i := by
      rcases h2 : surge_of hav now surge_snap _ with _ | i
      · have := (surge_of_isSome hav now surge_snap _).mpr htrig
        rw [h2] at this
        simp at this
      · exact ⟨i, rfl⟩
    have hlist : generate_surge hav now surge_snap = [i] := by
      rw [generate_surge, hsum]
      simp [List.filterMap_cons, hi]
    obtain ⟨_, _, _, h4, h5, _, _, _⟩ := surge_of_props hav now surge_snap _ i hi
    have hfull : (((mkSummary "R9"
        { route_short_name := "9"
          levels := [("empty", 0), ("seats", 0), ("standing", 1), ("full", 2)]
          latest_level := "full" }).levels.lookup "full").getD 0 : ℕ) = 2 := by decide
    have hstand : (((mkSummary "R9"
        { route_short_name := "9"
          levels := [("empty", 0), ("seats", 0), ("standing", 1), ("full", 2)]
          latest_level := "full" }).levels.lookup "standing").getD 0 : ℕ) = 1 := by decide
    refine ⟨by rw [hlist]; rfl, ?_⟩
    intro j hj
    rw [hlist] at hj
    obtain rfl := List.mem_singleton.mp hj
    constructor
    · rw [h4, hfull]
      norm_num
    · rw [h5, hfull, hstand]
      norm_num [pyInt]

/-- C8 witness: the main theorem applied to the S4 snapshot itself, whose
single summary is on route R9. -/
theorem surge_generation_correct_witness :
    (surge_snap.route_summaries.map RouteCrowdingSummary.route_id).Nodup ∧
      ((generate_surge (fun _ _ _ _ => 0) 0 surge_snap).length = 1 ∧
        ∀ i ∈ generate_surge (fun _ _ _ _ => 0) 0 surge_snap,
          i.priority = "high" ∧ i.passengers_affected = 202) :=
  ⟨by decide,
    (surge_generation_correct (fun _ _ _ _ => 0) 0 surge_snap (by decide)).2.2⟩

/-! ### C4 — bunching detection -/

theorem route_keys_aux (l : List LiveVehicle) (acc : List String) (x : String) :
    x ∈ l.foldl route_keys_step acc ↔ x ∈ acc ∨ (x ≠ "" ∧ ∃ v ∈ l, v.route_id = x) := by
  induction l generalizing acc with
  | nil => simp
  | cons v t ih =>
    show x ∈ t.foldl route_keys_step (route_keys_step acc v) ↔ _
    rw [ih]
    unfold route_keys_step
    by_cases h : v.route_id = "" ∨ v.route_id ∈ acc
    · rw [if_pos h]
      constructor
      · rintro (hx | ⟨hne, w, hw, hwx⟩)
        · exact Or.inl hx
        · exact Or.inr ⟨hne, w, List.mem_cons_of_mem _ hw, hwx⟩
      · rintro (hx | ⟨hne, w, hw, hwx⟩)
        · exact Or.inl hx
        · rcases List.mem_cons.mp hw with rfl | hwt
          · rcases h with h1 | h1
            · exact absurd (hwx.symm.trans h1) hne
            · exact Or.inl (hwx ▸ h1)
          · exact Or.inr ⟨hne, w, hwt, hwx⟩
    · rw [if_neg h]
      push_neg at h
      constructor
      · rintro (hx | ⟨hne, w, hw, hwx⟩)
        · rcases List.mem_append.mp hx with hx2 | hx2
          · exact Or.inl hx2
          · have hx3 : x = v.route_id := List.mem_singleton.mp hx2
            exact Or.inr ⟨hx3 ▸ h.1, v, List.mem_cons_self _ _, hx3.symm⟩
        · exact Or.inr ⟨hne, w, List.mem_cons_of_mem _ hw, hwx⟩
      · rintro (hx | ⟨hne, w, hw, hwx⟩)
        · exact Or.inl (List.mem_append.mpr (Or.inl hx))
        · rcases List.mem_cons.mp hw with rfl | hwt
          · exact Or.inl (List.mem_append.mpr (Or.inr (List.mem_singleton.mpr hwx.symm)))
          · exact Or.inr ⟨hne, w, hwt, hwx⟩

theorem route_keys_mem (vehicles : List LiveVehicle) (x : String) :
    x ∈ route_keys vehicles ↔ x ≠ "" ∧ ∃ v ∈ vehicles, v.route_id = x := by
  rw [route_keys, route_keys_aux]
  simp

theorem route_keys_nodup_aux (l : List LiveVehicle) (acc : List String) (hacc : acc.Nodup) :
    (l.foldl route_keys_step acc).Nodup := by
  induction l generalizing acc with
  | nil => exact hacc
  | cons v t ih =>
    show (t.foldl route_keys_step (route_keys_step acc v)).Nodup
    apply ih
    unfold route_keys_step
    by_cases h : v.route_id = "" ∨ v.route_id ∈ acc
    · rwa [if_pos h]
    · rw [if_neg h]
      push_neg at h
      rw [List.nodup_append]
      exact ⟨hacc, List.nodup_singleton _, by
        intro a ha ha2
        rw [List.mem_singleton] at ha2
        exact h.2 (ha2 ▸ ha)⟩

theorem route_keys_nodup (vehicles : List LiveVehicle) : (route_keys vehicles).Nodup :=
  route_keys_nodup_aux vehicles [] (List.nodup_nil)

theorem route_group_mem (vehicles : List LiveVehicle) (rid : String) (v : LiveVehicle) :
    v ∈ route_group vehicles rid ↔ v ∈ vehicles ∧ v.route_id = rid := by
  simp [route_group, List.mem_filter]

theorem route_group_ids_nodup (vehicles : List LiveVehicle) (rid : String)
    (hnd : (vehicles.map LiveVehicle.vehicle_id).Nodup) :
    ((route_group vehicles rid).map LiveVehicle.vehicle_id).Nodup :=
  ((List.filter_sublist vehicles).map LiveVehicle.vehicle_id).nodup hnd

theorem pairs_from_mem_elem (l : List LiveVehicle) (ab : LiveVehicle × LiveVehicle)
    (h : ab ∈ pairs_from l) : ab.1 ∈ l ∧ ab.2 ∈ l := by
  induction l with
  | nil => simp [pairs_from] at h
  | cons a t ih =>
    rw [pairs_from, List.mem_append] at h
    rcases h with h | h
    · obtain ⟨b, hb, hab⟩ := List.mem_map.mp h
      rw [← hab]
      exact ⟨List.mem_cons_self _ _, List.mem_cons_of_mem _ hb⟩
    · obtain ⟨h1, h2⟩ := ih h
      exact ⟨List.mem_cons_of_mem _ h1, List.mem_cons_of_mem _ h2⟩

theorem pairs_from_mem_iff (l : List LiveVehicle) (ab : LiveVehicle × LiveVehicle) :
    ab ∈ pairs_from l ↔
      ∃ (i j : ℕ) (hi : i < l.length) (hj : j < l.length),
        i < j ∧ ab.1 = l.get ⟨i, hi⟩ ∧ ab.2 = l.get ⟨j, hj⟩ := by
  induction l with
  | nil => simp [pairs_from]
  | cons a t ih =>
    rw [pairs_from, List.mem_append, ih]
    constructor
    · rintro (h | ⟨i, j, hi, hj, hij, h1, h2⟩)
      · obtain ⟨b, hb, hab⟩ := List.mem_map.mp h
        obtain ⟨k, hbk⟩ := List.mem_iff_get.mp hb
        refine ⟨0, k.val + 1, by simp, by simpa using Nat.succ_lt_succ k.isLt,
          Nat.succ_pos _, ?_, ?_⟩
        · rw [← hab]
          rfl
        · rw [← hab]
          exact hbk.symm
      · exact ⟨i + 1, j + 1, by simpa using Nat.succ_lt_succ hi,
          by simpa using Nat.succ_lt_succ hj, by omega, by simpa using h1, by simpa using h2⟩
    · rintro ⟨i, j, hi, hj, hij, h1, h2⟩
      cases i with
      | zero =>
        left
        cases j with
        | zero => omega
        | succ j0 =>
          have hj0 : j0 < t.length := by simpa using hj
          refine List.mem_map.mpr ⟨t.get ⟨j0, hj0⟩, List.get_mem t j0 hj0, ?_⟩
          have h1b : ab.1 = a := by simpa using h1
          have h2b : ab.2 = t.get ⟨j0, hj0⟩ := by
            rw [h2]
            rfl
          rw [Prod.ext_iff]
          exact ⟨h1b.symm ▸ rfl, h2b.symm ▸ rfl⟩
      | succ i0 =>
        right
        cases j with
        | zero => omega
        | succ j0 =>
          exact ⟨i0, j0, by simpa using hi, by simpa using hj, by omega,
            by simpa using h1, by simpa using h2⟩

theorem pairs_from_nodup (l : List LiveVehicle) (hnd : l.Nodup) : (pairs_from l).Nodup := by
  induction l with
  | nil => exact List.nodup_nil
  | cons a t ih =>
    rw [List.nodup_cons] at hnd
    rw [pairs_from, List.nodup_append]
    refine ⟨hnd.2.map (fun b1 b2 h => by simpa using congrArg Prod.snd h), ih hnd.2, ?_⟩
    intro ab hab hab2
    obtain ⟨b, _, habb⟩ := List.mem_map.mp hab
    have h1 := (pairs_from_mem_elem t ab hab2).1
    rw [← habb] at h1
    exact hnd.1 h1

theorem bunch_pairs_mem (hav : ℚ → ℚ → ℚ → ℚ → ℚ) (rid : String)
    (buses : List LiveVehicle) (p : BunchingPair) :
    p ∈ bunch_pairs hav rid buses ↔
      ∃ ab ∈ pairs_from buses,
        vdist hav ab.1 ab.2 < 400 ∧ p = mkBunchingPair rid ab.1 ab.2 (vdist hav ab.1 ab.2) := by
  rw [bunch_pairs, List.mem_map]
  constructor
  · rintro ⟨ab, hab, rfl⟩
    rw [List.mem_filter] at hab
    exact ⟨ab, hab.1, by simpa using hab.2, rfl⟩
  · rintro ⟨ab, hab, hd, rfl⟩
    exact ⟨ab, List.mem_filter.mpr ⟨hab, by simpa using hd⟩, rfl⟩

theorem bunch_pairs_nodup (hav : ℚ → ℚ → ℚ → ℚ → ℚ) (rid : String)
    (buses : List LiveVehicle) (hnd : (buses.map LiveVehicle.vehicle_id).Nodup) :
    (bunch_pairs hav rid buses).Nodup := by
  rw [bunch_pairs]
  apply List.Nodup.map_on
  · intro ab hab ab2 hab2 heq
    rw [List.mem_filter] at hab hab2
    have he1 := (pairs_from_mem_elem buses ab hab.1)
    have he2 := (pairs_from_mem_elem buses ab2 hab2.1)
    have hida : ab.1.vehicle_id = ab2.1.vehicle_id := congrArg BunchingPair.vehicle_a heq
    have hidb : ab.2.vehicle_id = ab2.2.vehicle_id := congrArg BunchingPair.vehicle_b heq
    have ha := List.inj_on_of_nodup_map hnd he1.1 he2.1 hida
    have hb := List.inj_on_of_nodup_map hnd he1.2 he2.2 hidb
    exact Prod.ext ha hb
  · exact (List.filter_sublist _).nodup
      (pairs_from_nodup buses (List.Nodup.of_map LiveVehicle.vehicle_id hnd))

theorem bunch_pairs_route_id (hav : ℚ → ℚ → ℚ → ℚ → ℚ) (rid : String)
    (buses : List LiveVehicle) (p : BunchingPair) (h : p ∈ bunch_pairs hav rid buses) :
    p.route_id = rid := by
  obtain ⟨ab, _, _, rfl⟩ := (bunch_pairs_mem hav rid buses p).mp h
  rfl

theorem worst_pair_spec (p0 : BunchingPair) (rest : List BunchingPair) :
    worst_pair p0 rest ∈ p0 :: rest ∧
      ∀ p ∈ p0 :: rest, (worst_pair p0 rest).distance_m ≤ p.distance_m := by
  induction rest generalizing p0 with
  | nil =>
    refine ⟨List.mem_cons_self _ _, ?_⟩
    intro p hp
    rcases List.mem_cons.mp hp with rfl | hp2
    · exact le_refl _
    · simp at hp2
  | cons q t ih =>
    have hstep : worst_pair p0 (q :: t)
        = worst_pair (if q.distance_m < p0.distance_m then q else p0) t := rfl
    obtain ⟨hmem, hle⟩ := ih (if q.distance_m < p0.distance_m then q else p0)
    constructor
    · rw [hstep]
      by_cases hq : q.distance_m < p0.distance_m
      · rw [if_pos hq] at hmem ⊢
        exact List.mem_cons_of_mem _ hmem
      · rw [if_neg hq] at hmem ⊢
        rcases List.mem_cons.mp hmem with heq | hmemt
        · rw [heq]
          exact List.mem_cons_self _ _
        · exact List.mem_cons_of_mem _ (List.mem_cons_of_mem _ hmemt)
    · intro p hp
      rw [hstep]
      by_cases hq : q.distance_m < p0.distance_m
      · rw [if_pos hq] at hle ⊢
        rcases List.mem_cons.mp hp with rfl | hp2
        · exact le_trans (hle _ (List.mem_cons_self _ _)) (le_of_lt hq)
        · rcases List.mem_cons.mp hp2 with rfl | hp3
          · exact hle _ (List.mem_cons_self _ _)
          · exact hle p (List.mem_cons_of_mem _ hp3)
      · rw [if_neg hq] at hle ⊢
        rcases List.mem_cons.mp hp with rfl | hp2
        · exact hle _ (List.mem_cons_self _ _)
        · rcases List.mem_cons.mp hp2 with rfl | hp3
          · exact le_trans (hle _ (List.mem_cons_self _ _)) (not_lt.mp hq)
          · exact hle p (List.mem_cons_of_mem _ hp3)

theorem pairSeverity_spec (d : ℚ) (h4 : d < 400) :
    (pairSeverity d = "severe" ↔ d < 200) ∧
      (pairSeverity d = "moderate" ↔ 200 ≤ d ∧ d < 300) ∧
      (pairSeverity d = "mild" ↔ 300 ≤ d ∧ d < 400) := by
  unfold pairSeverity
  split_ifs with h1 h2
  · exact ⟨⟨fun _ => h1, fun _ => rfl⟩,
      ⟨fun h => absurd h (by decide), fun h => absurd h.1 (not_le.mpr h1)⟩,
      ⟨fun h => absurd h (by decide), fun h => by linarith [h.1]⟩⟩
  · exact ⟨⟨fun h => absurd h (by decide), fun h => absurd h1 (not_not_intro h)⟩,
      ⟨fun _ => ⟨not_lt.mp h1, h2⟩, fun _ => rfl⟩,
      ⟨fun h => absurd h (by decide), fun h => by linarith [h.1]⟩⟩
  · exact ⟨⟨fun h => absurd h (by decide), fun h => absurd h1 (not_not_intro h)⟩,
      ⟨fun h => absurd h (by decide), fun h => absurd h2 (not_not_intro h.2)⟩,
      ⟨fun _ => ⟨not_lt.mp h2, h4⟩, fun _ => rfl⟩⟩

theorem route_alert_some (hav : ℚ → ℚ → ℚ → ℚ → ℚ) (vehicles : List LiveVehicle)
    (rid : String) (alert : BunchingAlert)
    (h : route_alert hav vehicles rid = some alert) :
    2 ≤ (route_group vehicles rid).length ∧
      ∃ p0 rest, bunch_pairs hav rid (route_group vehicles rid) = p0 :: rest ∧
        alert = mkAlert rid p0 rest := by
  unfold route_alert at h
  by_cases hlen : (route_group vehicles rid).length < 2
  · rw [if_pos hlen] at h
    simp at h
  · rw [if_neg hlen] at h
    rcases hbp : bunch_pairs hav rid (route_group vehicles rid) with _ | ⟨p0, rest⟩
    · rw [hbp] at h
      simp at h
    · rw [hbp] at h
      simp at h
      exact ⟨not_lt.mp hlen, p0, rest, rfl, h.symm⟩

theorem alerts_mem (hav : ℚ → ℚ → ℚ → ℚ → ℚ) (vehicles : List LiveVehicle)
    (alert : BunchingAlert) :
    alert ∈ (detect_bunching hav vehicles).alerts ↔
      ∃ rid ∈ route_keys vehicles, route_alert hav vehicles rid = some alert := by
  show alert ∈ ((route_keys vehicles).filterMap (route_alert hav vehicles)).insertionSort
    alert_le ↔ _
  rw [(List.perm_insertionSort alert_le _).mem_iff]
  exact List.mem_filterMap

theorem all_pairs_mem (hav : ℚ → ℚ → ℚ → ℚ → ℚ) (vehicles : List LiveVehicle)
    (p : BunchingPair) :
    p ∈ all_pairs (detect_bunching hav vehicles) ↔
      ∃ rid ∈ route_keys vehicles, ∃ alert,
        route_alert hav vehicles rid = some alert ∧ p ∈ alert.bunched_pairs := by
  rw [all_pairs, List.mem_flatMap]
  constructor
  · rintro ⟨alert, halert, hp⟩
    obtain ⟨rid, hrid, hra⟩ := (alerts_mem hav vehicles alert).mp halert
    exact ⟨rid, hrid, alert, hra, hp⟩
  · rintro ⟨rid, hrid, alert, hra, hp⟩
    exact ⟨alert, (alerts_mem hav vehicles alert).mpr ⟨rid, hrid, hra⟩, hp⟩

/-- C4: a `BunchingPair` appears for an index pair `i < j` of a non-empty
route's vehicle list iff the two vehicles are closer than 400 m; no pair is
duplicated; every emitted pair comes from such an index pair, with severity
severe iff `d < 200`, moderate iff `200 ≤ d < 300` and mild iff
`300 ≤ d < 400`; each alert's worst distance is the minimum recorded pair
distance; and alerts are sorted by severity rank then worst distance. -/
theorem detect_bunching_correct (hav : ℚ → ℚ → ℚ → ℚ → ℚ) (vehicles : List LiveVehicle)
    (hnd : (vehicles.map LiveVehicle.vehicle_id).Nodup) :
    (∀ rid : String, rid ≠ "" →
      ∀ (i j : ℕ) (hi : i < (route_group vehicles rid).length)
        (hj : j < (route_group vehicles rid).length), i < j →
        (mkBunchingPair rid ((route_group vehicles rid).get ⟨i, hi⟩)
            ((route_group vehicles rid).get ⟨j, hj⟩)
            (vdist hav ((route_group vehicles rid).get ⟨i, hi⟩)
              ((route_group vehicles rid).get ⟨j, hj⟩))
          ∈ all_pairs (detect_bunching hav vehicles) ↔
          vdist hav ((route_group vehicles rid).get ⟨i, hi⟩)
            ((route_group vehicles rid).get ⟨j, hj⟩) < 400)) ∧
      (all_pairs (detect_bunching hav vehicles)).Nodup ∧
      (∀ p ∈ all_pairs (detect_bunching hav vehicles),
        ∃ (rid : String) (a b : LiveVehicle), rid ≠ "" ∧
          (a, b) ∈ pairs_from (route_group vehicles rid) ∧
          p = mkBunchingPair rid a b (vdist hav a b) ∧
          vdist hav a b < 400 ∧
          (p.severity = "severe" ↔ vdist hav a b < 200) ∧
          (p.severity = "moderate" ↔ 200 ≤ vdist hav a b ∧ vdist hav a b < 300) ∧
          (p.severity = "mild" ↔ 300 ≤ vdist hav a b ∧ vdist hav a b < 400)) ∧
      (∀ alert ∈ (detect_bunching hav vehicles).alerts,
        alert.worst_distance_m ∈ alert.bunched_pairs.map BunchingPair.distance_m ∧
          ∀ p ∈ alert.bunched_pairs, alert.worst_distance_m ≤ p.distance_m) ∧
      List.Pairwise
        (fun a b => sev_rank a.severity < sev_rank b.severity ∨
          (sev_rank a.severity = sev_rank b.severity ∧
            a.worst_distance_m ≤ b.worst_distance_m))
        (detect_bunching hav vehicles).alerts := by
  have hfwd : ∀ (rid : String) (p : BunchingPair), rid ∈ route_keys vehicles →
      p ∈ bunch_pairs hav rid (route_group vehicles rid) →
      p ∈ all_pairs (detect_bunching hav vehicles) := by
    intro rid p hrid hp
    have hlen : 2 ≤ (route_group vehicles rid).length := by
      obtain ⟨ab, hab, _, _⟩ := (bunch_pairs_mem hav rid _ p).mp hp
      obtain ⟨i, j, hi, hj, hij, _, _⟩ := (pairs_from_mem_iff _ ab).mp hab
      omega
    rcases hbp : bunch_pairs hav rid (route_group vehicles rid) with _ | ⟨p0, rest⟩
    · rw [hbp] at hp
      simp at hp
    · have hra : route_alert hav vehicles rid = some (mkAlert rid p0 rest) := by
        unfold route_alert
        rw [if_neg (not_lt.mpr hlen), hbp]
      refine (all_pairs_mem hav vehicles p).mpr ⟨rid, hrid, mkAlert rid p0 rest, hra, ?_⟩
      show p ∈ p0 :: rest
      rw [← hbp]
      exact hp
  have hbwd : ∀ p : BunchingPair, p ∈ all_pairs (detect_bunching hav vehicles) →
      ∃ rid ∈ route_keys vehicles, p ∈ bunch_pairs hav rid (route_group vehicles rid) := by
    intro p hp
    obtain ⟨rid, hrid, alert, hra, hpa⟩ := (all_pairs_mem hav vehicles p).mp hp
    obtain ⟨_, p0, rest, hbp, rfl⟩ := route_alert_some hav vehicles rid alert hra
    refine ⟨rid, hrid, ?_⟩
    rw [hbp]
    exact hpa
  refine ⟨?_, ?_, ?_, ?_, ?_⟩
  · intro rid hne i j hi hj hij
    constructor
    · intro hmem
      obtain ⟨rid2, hrid2, hp2⟩ := hbwd _ hmem
      have h1 : rid = rid2 := bunch_pairs_route_id hav rid2 _ _ hp2
      subst h1
      obtain ⟨ab, hab, hd, heq⟩ := (bunch_pairs_mem hav rid _ _).mp hp2
      have hmema : (route_group vehicles rid).get ⟨i, hi⟩ ∈ vehicles :=
        ((route_group_mem vehicles rid _).mp (List.get_mem _ _ _)).1
      have hmemb : (route_group vehicles rid).get ⟨j, hj⟩ ∈ vehicles :=
        ((route_group_mem vehicles rid _).mp (List.get_mem _ _ _)).1
      have hmema2 : ab.1 ∈ vehicles :=
        ((route_group_mem vehicles rid _).mp (pairs_from_mem_elem _ ab hab).1).1
      have hmemb2 : ab.2 ∈ vehicles :=
        ((route_group_mem vehicles rid _).mp (pairs_from_mem_elem _ ab hab).2).1
      have hida : ((route_group vehicles rid).get ⟨i, hi⟩).vehicle_id = ab.1.vehicle_id :=
        congrArg BunchingPair.vehicle_a heq
      have hidb : ((route_group vehicles rid).get ⟨j, hj⟩).vehicle_id = ab.2.vehicle_id :=
        congrArg BunchingPair.vehicle_b heq
      have ha := List.inj_on_of_nodup_map hnd hmema hmema2 hida
      have hb := List.inj_on_of_nodup_map hnd hmemb hmemb2 hidb
      rw [ha, hb]
      exact hd
    · intro hd
      apply hfwd rid
      · exact (route_keys_mem vehicles rid).mpr ⟨hne,
          (route_group vehicles rid).get ⟨i, hi⟩,
          ((route_group_mem vehicles rid _).mp (List.get_mem _ _ _)).1,
          ((route_group_mem vehicles rid _).mp (List.get_mem _ _ _)).2⟩
      · exact (bunch_pairs_mem hav rid _ _).mpr
          ⟨((route_group vehicles rid).get ⟨i, hi⟩, (route_group vehicles rid).get ⟨j, hj⟩),
            (pairs_from_mem_iff _ _).mpr ⟨i, j, hi, hj, hij, rfl, rfl⟩, hd, rfl⟩
  · have hperm : (all_pairs (detect_bunching hav vehicles)).Perm
        (((route_keys vehicles).filterMap (route_alert hav vehicles)).flatMap
          BunchingAlert.bunched_pairs) :=
      (List.perm_insertionSort alert_le _).flatMap_right BunchingAlert.bunched_pairs
    rw [hperm.nodup_iff, List.flatMap_def, List.nodup_flatten]
    constructor
    · intro lp hlp
      obtain ⟨alert, halert, rfl⟩ := List.mem_map.mp hlp
      obtain ⟨rid, hrid, hra⟩ := List.mem_filterMap.mp halert
      obtain ⟨_, p0, rest, hbp, rfl⟩ := route_alert_some hav vehicles rid _ hra
      show (p0 :: rest).Nodup
      rw [← hbp]
      exact bunch_pairs_nodup hav rid _ (route_group_ids_nodup vehicles rid hnd)
    · rw [List.pairwise_map]
      apply List.Pairwise.filterMap (route_alert hav vehicles) ?_ (route_keys_nodup vehicles)
      intro rid rid2 hne alert halert alert2 halert2
      rw [Option.mem_def] at halert halert2
      obtain ⟨_, p0, rest, hbp, rfl⟩ := route_alert_some hav vehicles rid _ halert
      obtain ⟨_, q0, qrest, hbq, rfl⟩ := route_alert_some hav vehicles rid2 _ halert2
      intro p hp hp2
      have h1 : p.route_id = rid := bunch_pairs_route_id hav rid _ p (by rw [hbp]; exact hp)
      have h2 : p.route_id = rid2 := bunch_pairs_route_id hav rid2 _ p (by rw [hbq]; exact hp2)
      exact hne (h1.symm.trans h2)
  · intro p hp
    obtain ⟨rid, hrid, hpb⟩ := hbwd p hp
    obtain ⟨ab, hab, hd, rfl⟩ := (bunch_pairs_mem hav rid _ _).mp hpb
    obtain ⟨hne2, -⟩ := (route_keys_mem vehicles rid).mp hrid
    exact ⟨rid, ab.1, ab.2, hne2, hab, rfl, hd, (pairSeverity_spec _ hd).1,
      (pairSeverity_spec _ hd).2.1, (pairSeverity_spec _ hd).2.2⟩
  · intro alert halert
    obtain ⟨rid, hrid, hra⟩ := (alerts_mem hav vehicles alert).mp halert
    obtain ⟨_, p0, rest, hbp, rfl⟩ := route_alert_some hav vehicles rid _ hra
    obtain ⟨hwmem, hwle⟩ := worst_pair_spec p0 rest
    constructor
    · exact List.mem_map.mpr ⟨worst_pair p0 rest, hwmem, rfl⟩
    · intro p hp
      exact hwle p hp
  · exact List.sorted_insertionSort alert_le _

/-- C4 witness: the main theorem applied to two distinct vehicles on route
`R` and a constant distance function. -/
theorem detect_bunching_correct_witness :
    ([bunch_a, bunch_b].map LiveVehicle.vehicle_id).Nodup ∧
      (all_pairs (detect_bunching (fun _ _ _ _ => 100) [bunch_a, bunch_b])).Nodup ∧
      List.Pairwise
        (fun a b => sev_rank a.severity < sev_rank b.severity ∨
          (sev_rank a.severity = sev_rank b.severity ∧
            a.worst_distance_m ≤ b.worst_distance_m))
        (detect_bunching (fun _ _ _ _ => 100) [bunch_a, bunch_b]).alerts :=
  ⟨by decide,
    (detect_bunching_correct (fun _ _ _ _ => 100) [bunch_a, bunch_b] (by decide)).2.1,
    (detect_bunching_correct (fun _ _ _ _ => 100) [bunch_a, bunch_b] (by decide)).2.2.2.2⟩

/-- C10 witness: the amended theorem applied to a zero-bearing, zero-speed
entity. -/
theorem zero_bearing_speed_stored_null_witness :
    ((rec_entity_zero.position.bearing = 0 →
        (mkVehicleRecord empty_catalog no_delays rec_entity_zero).bearing = none) ∧
      (rec_entity_zero.position.speed = 0 →
        (mkVehicleRecord empty_catalog no_delays rec_entity_zero).speed_kmh = none) ∧
      parse_vehicle_positions empty_catalog [some rec_entity_zero] no_delays
        = ([some rec_entity_zero].filterMap id).map (mkVehicleRecord empty_catalog no_delays)) :=
  zero_bearing_speed_stored_null empty_catalog no_delays [some rec_entity_zero] rec_entity_zero

end BusIQ
